import Mathlib

/-!
Verification of the Dolphin CARD uCode HLE module
(Source/Core/Core/HW/DSPHLE/UCodes/CARD.cpp).

The module is embedded shallowly: guest memory (MRAM) and the auxiliary
working memory (ARAM) are byte stores of type Nat → Nat, machine integers
are Nat with explicit reduction modulo 2 to the 16 or 32, and the mailbox
handler is a pure function returning the new module state together with a
list of externally visible effects.

The DSP accelerator, the HLE guest-memory primitives, the mail-word
constants and the shared snapshot plumbing live outside the repository
slice under verification; they are modelled from the specification and
marked as such in their doc comments.
-/

namespace CardVerify

/-- 2 to the 16, the modulus of unsigned 16-bit arithmetic. -/
def M16 : Nat := 0x10000

/-- 2 to the 32, the modulus of unsigned 32-bit arithmetic. -/
def M32 : Nat := 0x100000000

/-- CARD.cpp line 19: CRC identifying the GameCube variant of the uCode. -/
def CRC_GAMECUBE : Nat := 0x65D6CC6F

/-- CARD.cpp line 20: CRC identifying the Wii variant of the uCode. -/
def CRC_WII : Nat := 0x65DA0C63

/-- Modelled from the spec: the exact mail word that begins a firmware
upload while the module awaits its next command (UCodes.h is outside the
verified slice; the spec gives the value 0xCDD10001). -/
def MAIL_NEW_UCODE : Nat := 0xCDD10001

/-- Modelled from the spec: the exact mail word that switches back to the
default (ROM) firmware (UCodes.h is outside the verified slice; the spec
gives the value 0xCDD10002). -/
def MAIL_RESET : Nat := 0xCDD10002

/-- CARD.h: the 16-byte request-parameter record decoded from guest memory. -/
structure CardUcodeParameters where
  mram_input_addr : Nat
  unused : Nat
  input_size : Nat
  aram_work_addr : Nat
  mram_output_addr : Nat
deriving DecidableEq

/-- CARD.h: the six working registers of the hash engine. -/
structure CardUcodeWorkData where
  work_0408 : Nat
  work_040a : Nat
  work_040c : Nat
  work_040e : Nat
  work_0410 : Nat
  work_0411 : Nat
deriving DecidableEq

/-- Modelled from the spec: big-endian 16-bit read from guest memory
(HLEMemory_Read_U16 lives in UCodes.cpp, outside the verified slice).
Guest memory is a byte store; each byte is reduced modulo 0x100. -/
def HLEMemory_Read_U16 (mem : Nat → Nat) (address : Nat) : Nat :=
  (mem address % 0x100) * 0x100 + mem (address + 1) % 0x100

/-- Modelled from the spec: big-endian 32-bit read from guest memory
(HLEMemory_Read_U32 lives in UCodes.cpp, outside the verified slice). -/
def HLEMemory_Read_U32 (mem : Nat → Nat) (address : Nat) : Nat :=
  HLEMemory_Read_U16 mem address * 0x10000 + HLEMemory_Read_U16 mem (address + 2)

/-- CARD.cpp lines 98-109: decode the request-parameter record with five
fixed-offset big-endian reads at offsets 0, 4, 6, 8 and 12. -/
def ReadParameters (mem : Nat → Nat) (address : Nat) : CardUcodeParameters :=
  { mram_input_addr := HLEMemory_Read_U32 mem address
    unused := HLEMemory_Read_U16 mem (address + 4)
    input_size := HLEMemory_Read_U16 mem (address + 6)
    aram_work_addr := HLEMemory_Read_U32 mem (address + 8)
    mram_output_addr := HLEMemory_Read_U32 mem (address + 12) }

/-- Modelled from the spec: accelerator word-mode write (DSPAccelerator.cpp
is outside the verified slice).  The 16-bit value lands big-endian at byte
offsets 2c and 2c+1, where c is the cursor reduced into the word-mode
window 0..0x01FFFFFF. -/
def aramWriteWord (aram : Nat → Nat) (cursor value : Nat) : Nat → Nat :=
  fun a =>
    if a = 2 * (cursor % 0x2000000) then value / 0x100 % 0x100
    else if a = 2 * (cursor % 0x2000000) + 1 then value % 0x100
    else aram a

/-- Modelled from the spec: accelerator nibble-mode read (DSPAccelerator.cpp
is outside the verified slice).  The cursor is reduced into the nibble-mode
window 0..0x07FFFFFF; the containing byte is fetched and the high nibble is
returned on an even nibble index, the low nibble on an odd one. -/
def aramReadNibble (aram : Nat → Nat) (cursor : Nat) : Nat :=
  if cursor % 0x8000000 % 2 = 0 then aram (cursor % 0x8000000 / 2) % 0x100 / 0x10
  else aram (cursor % 0x8000000 / 2) % 0x100 % 0x10

/-- State threaded through the load phase of DoCardHash (CARD.cpp lines
194-220): the working memory, the accelerator word cursor, the running
byte sum, plus two instrumentation fields recording the 16-bit words
written through the accelerator and every local-buffer index read. -/
structure LoadState where
  aram : Nat → Nat
  cursor : Nat
  sum : Nat
  writtenWords : List Nat
  bufferReads : List Nat

/-- Modelled from the spec: one accelerator word-mode WriteD3.  Stores the
16-bit value at the cursor and advances the cursor by one word inside the
word-mode window. -/
def writeD3 (s : LoadState) (value : Nat) : LoadState :=
  { s with
    aram := aramWriteWord s.aram s.cursor (value % M16)
    cursor := (s.cursor + 1) % 0x2000000
    writtenWords := s.writtenWords ++ [value % M16] }

/-- CARD.cpp lines 196-206: the main copy loop of DoCardHash.  Pair i packs
buffer bytes 2i (high) and 2i+1 (low) into one word, writes it through the
accelerator and adds both bytes to the running sum.  Recursion on the pair
count processes pairs in ascending order of i. -/
def loadWords (buffer : Nat → Nat) (s0 : LoadState) : Nat → LoadState
  | 0 => s0
  | k + 1 =>
    let s := loadWords buffer s0 k
    let first := buffer (2 * k)
    let second := buffer (2 * k + 1)
    let value := first * 0x100 + second
    let s := writeD3 { s with bufferReads := s.bufferReads ++ [2 * k, 2 * k + 1] } value
    { s with sum := (s.sum + first + second) % M32 }

/-- CARD.cpp lines 194-220: the whole load phase of DoCardHash, including
the odd-size tail (lines 207-220) that packs the last input byte with the
following buffer byte, writes the pair and adds only the last input byte
(read a second time at line 219) to the sum. -/
def loadPhase (aram0 buffer : Nat → Nat) (input_size work_addr : Nat) : LoadState :=
  let s := loadWords buffer ⟨aram0, work_addr, 0, [], []⟩ (input_size / 2)
  if input_size % 2 = 1 then
    let first := buffer (input_size - 1)
    let second := buffer input_size
    let value := first * 0x100 + second
    let s := writeD3 { s with bufferReads := s.bufferReads ++ [input_size - 1, input_size] } value
    { s with
      sum := (s.sum + buffer (input_size - 1)) % M32
      bufferReads := s.bufferReads ++ [input_size - 1] }
  else s

/-- CARD.cpp lines 129-170 (DoCardHashStep): the combining step of the hash
engine, translated line by line; u16 assignments reduce modulo M16 and all
32-bit arithmetic reduces modulo M32. -/
def DoCardHashStep (data : CardUcodeWorkData) (prev1 prev2 new1 new2 : Nat) :
    CardUcodeWorkData :=
  let tmp1 := ((new2 <<< 4) ||| prev2) % M16
  let tmp1 := if tmp1 &&& 0x80 ≠ 0 then tmp1 ||| 0xFF00 else tmp1
  let tmp1 := (tmp1 ^^^ (prev1 <<< 8)) % M16
  let tmp1 := (tmp1 ^^^ (new1 <<< 12)) % M16
  let work_0408 := (data.work_0408 + tmp1) % M32
  let tmp2 := ((data.work_040c ^^^ data.work_040e) + work_0408) % M32
  let work_0411 := (data.work_0411 + 1) % M16
  let rotate := (data.work_0410 + work_0411) &&& 0x1F
  let tmp3 := tmp2 >>> rotate
  let tmp3 := if rotate ≠ 0 then (tmp3 + (tmp2 <<< (0x20 - rotate)) % M32) % M32 else tmp3
  let work_040a := (data.work_040a + tmp3) % M32
  let work_040c := ((0xFFFFFFFF ^^^ work_0408) &&& work_040a) ||| (work_0408 &&& data.work_040e)
  let work_040e := work_0408 ^^^ work_040a ^^^ work_040c
  ⟨work_0408, work_040a, work_040c, work_040e, data.work_0410, work_0411⟩

/-- State threaded through the hashing phase of DoCardHash (CARD.cpp lines
238-277): the accelerator nibble cursor, the previous nibble pair, the six
hash registers, plus two instrumentation counters for combining-step
invocations and accelerator nibble reads. -/
structure HashState where
  cursor : Nat
  prev1 : Nat
  prev2 : Nat
  data : CardUcodeWorkData
  steps : Nat
  reads : Nat
deriving DecidableEq

/-- Modelled from the spec: one accelerator nibble-mode ReadD3.  Returns
the nibble under the cursor and advances the cursor by one nibble inside
the nibble-mode window. -/
def readD3 (aram : Nat → Nat) (s : HashState) : Nat × HashState :=
  (aramReadNibble aram s.cursor,
   { s with cursor := (s.cursor + 1) % 0x8000000, reads := s.reads + 1 })

/-- CARD.cpp lines 255-269: one iteration of the hashing loop, performing
the combining step twice, each time on a freshly read nibble pair, copying
new to prev after each step. -/
def hashIter (aram : Nat → Nat) (s : HashState) : HashState :=
  let (new1, s) := readD3 aram s
  let (new2, s) := readD3 aram s
  let s := { s with
             data := DoCardHashStep s.data s.prev1 s.prev2 new1 new2
             steps := s.steps + 1
             prev1 := new1
             prev2 := new2 }
  let (new1, s) := readD3 aram s
  let (new2, s) := readD3 aram s
  { s with
    data := DoCardHashStep s.data s.prev1 s.prev2 new1 new2
    steps := s.steps + 1
    prev1 := new1
    prev2 := new2 }

/-- CARD.cpp lines 255-269: the hashing loop, iterated new_counter times. -/
def hashLoop (aram : Nat → Nat) : Nat → HashState → HashState
  | 0, s => s
  | n + 1, s => hashLoop aram n (hashIter aram s)

/-- Everything externally observable about one DoCardHash invocation:
the guest address that receives the result, the 32-bit result value
(register work_040a), and the instrumentation gathered along the way. -/
structure CardHashResult where
  output_addr : Nat
  value : Nat
  steps : Nat
  reads : Nat
  sum : Nat
  writtenWords : List Nat
  bufferReads : List Nat
deriving DecidableEq

/-- CARD.cpp lines 177-178: the DMA size, the input size rounded up to a
multiple of 4 bytes; the result is stored in a 16-bit register and hence
reduced modulo M16 (clearing the two low bits equals rounding down after
adding 3). -/
def dmaSize (input_size : Nat) : Nat := (input_size + 3) / 4 * 4 % M16

/-- CARD.cpp lines 230-277: the hashing phase of DoCardHash.  Point the
accelerator at the work address in nibble mode, read the initial prev1 and
prev2 nibbles, run the hashing loop new_counter times (where new_counter
is the 16-bit value (input_size - 1) / 2, underflowing to 0xFFFF when the
size is zero), and run one more combining step when the size is even. -/
def hashPhase (aram : Nat → Nat) (work_addr input_size : Nat)
    (data : CardUcodeWorkData) : HashState :=
  let hs : HashState := ⟨work_addr, 0, 0, data, 0, 0⟩
  let (p1, hs) := readD3 aram hs
  let (p2, hs) := readD3 aram hs
  let hs := { hs with prev1 := p1, prev2 := p2 }
  let new_counter :=
    if input_size ≠ 0 then (input_size - 1) / 2 % M16 else 0xFFFF
  let hs := hashLoop aram new_counter hs
  if input_size % 2 = 0 then
    let (new1, hs) := readD3 aram hs
    let (new2, hs) := readD3 aram hs
    { hs with
      data := DoCardHashStep hs.data hs.prev1 hs.prev2 new1 new2
      steps := hs.steps + 1 }
  else hs

/-- CARD.cpp lines 172-281 (DoCardHash): round the size up to a multiple of
four, stream the input through the accelerator in word mode while summing
its bytes, seed the six hash registers, run the hashing phase, and hand
the final work_040a register to the output address. -/
def DoCardHash (mem aram0 : Nat → Nat) (params : CardUcodeParameters) : CardHashResult :=
  let buffer := fun j => mem (params.mram_input_addr + j) % 0x100
  let ls := loadPhase aram0 buffer params.input_size params.aram_work_addr
  let data : CardUcodeWorkData :=
    { work_0408 := (ls.sum + 0x170A7489) % M32
      work_040a := 0x05EFE0AA
      work_040c := 0xDAF4B157
      work_040e := 0x6BBEC3B6
      work_0410 := (ls.sum + 8) % M16
      work_0411 := 0 }
  let hs := hashPhase ls.aram params.aram_work_addr params.input_size data
  { output_addr := params.mram_output_addr
    value := hs.data.work_040a
    steps := hs.steps
    reads := hs.reads
    sum := ls.sum
    writtenWords := ls.writtenWords
    bufferReads := ls.bufferReads }

/-- CARD.h lines 424-429: the three protocol states. -/
inductive State
  | WaitingForRequest
  | WaitingForAddress
  | WaitingForNextTask
deriving DecidableEq

/-- The two outgoing mail words the module produces (their numeric values
live in UCodes.h, outside the verified slice; only their identity matters
here). -/
inductive OutMail
  | dspInitMail
  | dspDoneMail
deriving DecidableEq

/-- Externally visible effects of one HandleMail call, in program order. -/
inductive Effect
  | hashWrite (addr value : Nat)
  | pushMail (m : OutMail)
  | prepareBoot (mail : Nat)
  | setUCodeRom
  | logWarn
deriving DecidableEq

/-- The module-local state of CARDUCode: the protocol state (CARD.h line
431), the upload-in-progress flag inherited from UCodeInterface, and the
construction-time CRC identifying the variant. -/
structure CARDUCode where
  m_state : State
  m_upload_setup_in_progress : Bool
  m_crc : Nat
deriving DecidableEq

/-- CARD.cpp lines 37-42: Initialize pushes the init mail and resets the
protocol state. -/
def Initialize (u : CARDUCode) : CARDUCode × List Effect :=
  ({ u with m_state := State.WaitingForRequest }, [Effect.pushMail OutMail.dspInitMail])

/-- CARD.cpp lines 292-372 (HandleMail): the mailbox protocol state
machine.  The upload-in-progress flag intercepts every word first; else
the current state interprets the word.  Info logging is out of scope per
the spec; warnings are recorded as effects. -/
def HandleMail (mem aram : Nat → Nat) (u : CARDUCode) (mail : Nat) :
    CARDUCode × List Effect :=
  if u.m_upload_setup_in_progress then
    (u, [Effect.prepareBoot mail])
  else
    match u.m_state with
    | State.WaitingForRequest =>
      if mail = 0xFF000000 then
        ({ u with m_state := State.WaitingForAddress }, [])
      else
        (u, [Effect.logWarn])
    | State.WaitingForAddress =>
      let mask := if u.m_crc = CRC_WII then 0x3FFFFFFF else 0x0FFFFFFF
      let params := ReadParameters mem (mail &&& mask)
      let r := DoCardHash mem aram params
      ({ u with m_state := State.WaitingForNextTask },
       [Effect.hashWrite r.output_addr r.value, Effect.pushMail OutMail.dspDoneMail])
    | State.WaitingForNextTask =>
      if mail = MAIL_NEW_UCODE then
        ({ u with m_upload_setup_in_progress := true }, [])
      else if mail = MAIL_RESET then
        (u, [Effect.setUCodeRom])
      else
        (u, [Effect.logWarn])

/-- The data a snapshot captures for this module: the upload-in-progress
flag (modelled from the spec: DoStateShared in UCodes.cpp serializes it)
and the protocol state (CARD.cpp line 377). -/
structure Snapshot where
  upload_setup_in_progress : Bool
  state : State
deriving DecidableEq

/-- CARD.cpp lines 374-378 (DoState) in save direction. -/
def saveState (u : CARDUCode) : Snapshot :=
  ⟨u.m_upload_setup_in_progress, u.m_state⟩

/-- CARD.cpp lines 374-378 (DoState) in restore direction, applied to the
freshly constructed module u. -/
def loadSnapshot (u : CARDUCode) (s : Snapshot) : CARDUCode :=
  { u with m_upload_setup_in_progress := s.upload_setup_in_progress, m_state := s.state }

/-- The all-zero byte store, used for concrete test vectors. -/
def zeroMem : Nat → Nat := fun _ => 0


/-- The combining step exactly as the specification words it (section
4.4.1): shifts written as powers of two, rotate amount reduced mod 32, and
the sign-extension condition phrased as testing bit 7.  Compared against
DoCardHashStep, which is translated from the source. -/
def combineSpec (st : CardUcodeWorkData) (prev1 prev2 new1 new2 : Nat) :
    CardUcodeWorkData :=
  let mixed := ((new2 <<< 4) ||| prev2) % M16
  let mixed := if Nat.testBit mixed 7 = true then mixed ||| 0xFF00 else mixed
  let mixed := (mixed ^^^ (prev1 <<< 8)) % M16
  let mixed := (mixed ^^^ (new1 <<< 12)) % M16
  let acc_a := (st.work_0408 + mixed) % M32
  let combined := ((st.work_040c ^^^ st.work_040e) + acc_a) % M32
  let step_counter := (st.work_0411 + 1) % M16
  let rotate := (st.work_0410 + step_counter) % 32
  let rotated := combined / 2 ^ rotate
  let rotated :=
    if rotate ≠ 0 then (rotated + combined * 2 ^ (32 - rotate) % M32) % M32 else rotated
  let acc_b := (st.work_040a + rotated) % M32
  let acc_c := ((0xFFFFFFFF ^^^ acc_a) &&& acc_b) ||| (acc_a &&& st.work_040e)
  let acc_d := acc_a ^^^ acc_b ^^^ acc_c
  ⟨acc_a, acc_b, acc_c, acc_d, st.work_0410, step_counter⟩

/-- Big-endian fixed-width read as the specification words it: n bytes
starting at the given address, first byte most significant. -/
def beRead (mem : Nat → Nat) (address : Nat) : Nat → Nat
  | 0 => 0
  | k + 1 => beRead mem address k * 0x100 + mem (address + k) % 0x100

/-- The request-parameter decode exactly as the specification words it:
big-endian reads of 4, 2, 2, 4 and 4 bytes at offsets 0, 4, 6, 8 and 12.
Compared against ReadParameters, which is translated from the source. -/
def readParametersSpec (mem : Nat → Nat) (address : Nat) : CardUcodeParameters :=
  { mram_input_addr := beRead mem address 4
    unused := beRead mem (address + 4) 2
    input_size := beRead mem (address + 6) 2
    aram_work_addr := beRead mem (address + 8) 4
    mram_output_addr := beRead mem (address + 12) 4 }

/-- A byte store holding the listed bytes from address 0 on, zero
elsewhere. -/
def memOfBytes (l : List Nat) : Nat → Nat := fun a => l.getD a 0

/-- The combining step with all four nibble inputs zero, which is what
every step of a zero-length request performs over an all-zero working
buffer. -/
def zeroStep (d : CardUcodeWorkData) : CardUcodeWorkData := DoCardHashStep d 0 0 0 0

/-- n successive zero-input combining steps. -/
def zeroSteps : Nat → CardUcodeWorkData → CardUcodeWorkData
  | 0, d => d
  | n + 1, d => zeroSteps n (zeroStep d)

/-- The hash registers right after initialization for a zero-length
request: the byte sum is 0, so work_0408 is 0x170A7489 and work_0410 is
8. -/
def zeroInitData : CardUcodeWorkData :=
  ⟨0x170A7489, 0x05EFE0AA, 0xDAF4B157, 0x6BBEC3B6, 8, 0⟩

section HelperLemmas

/-- Masking with 0x1F is reduction mod 32. -/
theorem and_mask_1F (x : Nat) : x &&& 0x1F = x % 32 := by
  have h := Nat.and_pow_two_sub_one_eq_mod x 5
  norm_num at h
  exact h

/-- The bit-7 test of the source (mask with 0x80) equals the testBit
phrasing of the specification. -/
theorem and_mask_80_ne (x : Nat) : (x &&& 0x80 ≠ 0) = (Nat.testBit x 7 = true) := by
  rw [show (0x80 : Nat) = 2 ^ 7 by norm_num, Nat.and_two_pow]
  rcases Nat.testBit x 7 <;> simp

end HelperLemmas

/-- Claim C2: for every hash-engine state and every nibble quadruple, the
combining step translated from the source (DoCardHashStep) computes
exactly the sequence the specification prescribes (combineSpec): the
mixing with bit-7 sign extension, the wrapping accumulator updates, the
mod-32 rotate with explicit add-back, and the final acc_c / acc_d
updates, all in unsigned arithmetic with silent wraparound and logical
shifts. -/
theorem c2_combining_step_matches_spec
    (st : CardUcodeWorkData) (prev1 prev2 new1 new2 : Nat) :
    DoCardHashStep st prev1 prev2 new1 new2 = combineSpec st prev1 prev2 new1 new2 := by
  simp only [DoCardHashStep, combineSpec, and_mask_1F, and_mask_80_ne,
    Nat.shiftRight_eq_div_pow, Nat.shiftLeft_eq]

/-- The source decode agrees with the spec-worded decode. -/
theorem readParameters_eq_spec (mem : Nat → Nat) (address : Nat) :
    ReadParameters mem address = readParametersSpec mem address := by
  simp only [ReadParameters, readParametersSpec, HLEMemory_Read_U32, HLEMemory_Read_U16,
    beRead, CardUcodeParameters.mk.injEq, Nat.add_zero]
  refine ⟨by ring, by ring, by ring, by ring, by ring⟩

/-- Claim C5: in state WaitingForAddress (with no upload in progress, the
two phases being mutually exclusive), every incoming mail word is masked
with 0x3FFFFFFF on the Wii variant and 0x0FFFFFFF otherwise, the 16-byte
parameter record is decoded at the masked address with big-endian reads of
4/2/2/4/4 bytes at offsets 0/4/6/8/12, the hash computation runs, exactly
one done mail is pushed, and the module transitions to
WaitingForNextTask. -/
theorem c5_address_phase (mem aram : Nat → Nat) (u : CARDUCode) (mail : Nat)
    (hs : u.m_state = State.WaitingForAddress)
    (hf : u.m_upload_setup_in_progress = false) :
    HandleMail mem aram u mail =
      (⟨State.WaitingForNextTask, false, u.m_crc⟩,
       [Effect.hashWrite
          (DoCardHash mem aram (readParametersSpec mem
            (mail &&& (if u.m_crc = CRC_WII then 0x3FFFFFFF else 0x0FFFFFFF)))).output_addr
          (DoCardHash mem aram (readParametersSpec mem
            (mail &&& (if u.m_crc = CRC_WII then 0x3FFFFFFF else 0x0FFFFFFF)))).value,
        Effect.pushMail OutMail.dspDoneMail]) := by
  obtain ⟨s, f, crc⟩ := u
  simp only at hs hf
  subst hs; subst hf
  simp [HandleMail, readParameters_eq_spec]

/-- Witness for C5 at a concrete input: a GameCube-variant module in the
address phase receiving mail word 0, over a guest memory whose decoded
record requests a 2-byte hash. -/
theorem c5_address_phase_witness :
    (⟨State.WaitingForAddress, false, CRC_GAMECUBE⟩ : CARDUCode).m_state =
        State.WaitingForAddress ∧
      (⟨State.WaitingForAddress, false, CRC_GAMECUBE⟩ : CARDUCode).m_upload_setup_in_progress =
        false ∧
      HandleMail (fun a => if a = 7 then 2 else 0) zeroMem
          ⟨State.WaitingForAddress, false, CRC_GAMECUBE⟩ 0 =
        (⟨State.WaitingForNextTask, false,
            (⟨State.WaitingForAddress, false, CRC_GAMECUBE⟩ : CARDUCode).m_crc⟩,
         [Effect.hashWrite
            (DoCardHash (fun a => if a = 7 then 2 else 0) zeroMem
              (readParametersSpec (fun a => if a = 7 then 2 else 0)
                (0 &&& (if (⟨State.WaitingForAddress, false, CRC_GAMECUBE⟩ : CARDUCode).m_crc =
                    CRC_WII then 0x3FFFFFFF else 0x0FFFFFFF)))).output_addr
            (DoCardHash (fun a => if a = 7 then 2 else 0) zeroMem
              (readParametersSpec (fun a => if a = 7 then 2 else 0)
                (0 &&& (if (⟨State.WaitingForAddress, false, CRC_GAMECUBE⟩ : CARDUCode).m_crc =
                    CRC_WII then 0x3FFFFFFF else 0x0FFFFFFF)))).value,
          Effect.pushMail OutMail.dspDoneMail]) :=
  ⟨rfl, rfl, c5_address_phase (fun a => if a = 7 then 2 else 0) zeroMem
    ⟨State.WaitingForAddress, false, CRC_GAMECUBE⟩ 0 rfl rfl⟩

/-- Claim C6: whenever the upload-in-progress flag is set, HandleMail
forwards the word to the firmware-upload receiver and does nothing else:
no state change, no outgoing mail, no other effect, for every word and
every protocol state. -/
theorem c6_upload_intercept (mem aram : Nat → Nat) (u : CARDUCode) (mail : Nat)
    (hf : u.m_upload_setup_in_progress = true) :
    HandleMail mem aram u mail = (u, [Effect.prepareBoot mail]) := by
  simp [HandleMail, hf]

/-- Witness for C6 at a concrete input. -/
theorem c6_upload_intercept_witness :
    (⟨State.WaitingForRequest, true, CRC_GAMECUBE⟩ : CARDUCode).m_upload_setup_in_progress =
        true ∧
      HandleMail zeroMem zeroMem ⟨State.WaitingForRequest, true, CRC_GAMECUBE⟩ 0xFF000000 =
        (⟨State.WaitingForRequest, true, CRC_GAMECUBE⟩, [Effect.prepareBoot 0xFF000000]) :=
  ⟨rfl, c6_upload_intercept zeroMem zeroMem ⟨State.WaitingForRequest, true, CRC_GAMECUBE⟩
    0xFF000000 rfl⟩

/-- Claim C7: in state WaitingForNextTask with no upload in progress, only
the exact word 0xCDD10001 sets the upload-in-progress flag, the exact word
0xCDD10002 produces exactly one switch-to-default-firmware signal and no
hash computation, any other word produces only a warning, and in all cases
the protocol state stays WaitingForNextTask. -/
theorem c7_next_command_phase (mem aram : Nat → Nat) (u : CARDUCode)
    (hs : u.m_state = State.WaitingForNextTask)
    (hf : u.m_upload_setup_in_progress = false) :
    (∀ mail, ((HandleMail mem aram u mail).1.m_upload_setup_in_progress = true ↔
        mail = 0xCDD10001) ∧
      (HandleMail mem aram u mail).1.m_state = State.WaitingForNextTask) ∧
      HandleMail mem aram u 0xCDD10002 = (u, [Effect.setUCodeRom]) ∧
      (∀ mail, mail ≠ 0xCDD10001 → mail ≠ 0xCDD10002 →
        HandleMail mem aram u mail = (u, [Effect.logWarn])) := by
  obtain ⟨s, f, crc⟩ := u
  simp only at hs hf
  subst hs; subst hf
  refine ⟨fun mail => ?_, by simp [HandleMail, MAIL_NEW_UCODE, MAIL_RESET],
    fun mail h1 h2 => by simp [HandleMail, MAIL_NEW_UCODE, MAIL_RESET, h1, h2]⟩
  by_cases h1 : mail = 0xCDD10001
  · subst h1; simp [HandleMail, MAIL_NEW_UCODE, MAIL_RESET]
  · by_cases h2 : mail = 0xCDD10002
    · subst h2; simp [HandleMail, MAIL_NEW_UCODE, MAIL_RESET]
    · simp [HandleMail, MAIL_NEW_UCODE, MAIL_RESET, h1, h2]

/-- Witness for C7 at a concrete input. -/
theorem c7_next_command_phase_witness :
    (⟨State.WaitingForNextTask, false, CRC_WII⟩ : CARDUCode).m_state =
        State.WaitingForNextTask ∧
      (⟨State.WaitingForNextTask, false, CRC_WII⟩ : CARDUCode).m_upload_setup_in_progress =
        false ∧
      ((∀ mail, ((HandleMail zeroMem zeroMem ⟨State.WaitingForNextTask, false, CRC_WII⟩
            mail).1.m_upload_setup_in_progress = true ↔ mail = 0xCDD10001) ∧
          (HandleMail zeroMem zeroMem ⟨State.WaitingForNextTask, false, CRC_WII⟩
            mail).1.m_state = State.WaitingForNextTask) ∧
        HandleMail zeroMem zeroMem ⟨State.WaitingForNextTask, false, CRC_WII⟩ 0xCDD10002 =
          (⟨State.WaitingForNextTask, false, CRC_WII⟩, [Effect.setUCodeRom]) ∧
        (∀ mail, mail ≠ 0xCDD10001 → mail ≠ 0xCDD10002 →
          HandleMail zeroMem zeroMem ⟨State.WaitingForNextTask, false, CRC_WII⟩ mail =
            (⟨State.WaitingForNextTask, false, CRC_WII⟩, [Effect.logWarn]))) :=
  ⟨rfl, rfl, c7_next_command_phase zeroMem zeroMem
    ⟨State.WaitingForNextTask, false, CRC_WII⟩ rfl rfl⟩

/-- Claim C9: saving a snapshot and restoring it into a freshly
constructed module of the same variant restores the protocol state and the
upload-in-progress flag exactly, and since the snapshot carries nothing
else (hash registers and accelerator cursor are locals of each DoCardHash
invocation, not module state), the restored module behaves identically to
the original on every subsequent mail word. -/
theorem c9_snapshot_roundtrip (u v : CARDUCode) (hcrc : v.m_crc = u.m_crc) :
    loadSnapshot v (saveState u) = u ∧
      ∀ mem aram mail, HandleMail mem aram (loadSnapshot v (saveState u)) mail =
        HandleMail mem aram u mail := by
  obtain ⟨s, f, crc⟩ := u
  obtain ⟨s2, f2, crc2⟩ := v
  simp only at hcrc
  subst hcrc
  exact ⟨rfl, fun mem aram mail => rfl⟩

/-- Witness for C9 at a concrete input. -/
theorem c9_snapshot_roundtrip_witness :
    (⟨State.WaitingForRequest, false, CRC_WII⟩ : CARDUCode).m_crc =
        (⟨State.WaitingForNextTask, true, CRC_WII⟩ : CARDUCode).m_crc ∧
      loadSnapshot ⟨State.WaitingForRequest, false, CRC_WII⟩
          (saveState ⟨State.WaitingForNextTask, true, CRC_WII⟩) =
        ⟨State.WaitingForNextTask, true, CRC_WII⟩ ∧
      ∀ mem aram mail,
        HandleMail mem aram (loadSnapshot ⟨State.WaitingForRequest, false, CRC_WII⟩
          (saveState ⟨State.WaitingForNextTask, true, CRC_WII⟩)) mail =
        HandleMail mem aram ⟨State.WaitingForNextTask, true, CRC_WII⟩ mail :=
  ⟨rfl,
    (c9_snapshot_roundtrip ⟨State.WaitingForNextTask, true, CRC_WII⟩
      ⟨State.WaitingForRequest, false, CRC_WII⟩ rfl).1,
    (c9_snapshot_roundtrip ⟨State.WaitingForNextTask, true, CRC_WII⟩
      ⟨State.WaitingForRequest, false, CRC_WII⟩ rfl).2⟩

/-- One hashing-loop iteration performs exactly two combining steps and
four nibble reads. -/
theorem hashIter_counts (aram : Nat → Nat) (s : HashState) :
    (hashIter aram s).steps = s.steps + 2 ∧ (hashIter aram s).reads = s.reads + 4 := by
  simp [hashIter, readD3]

/-- The hashing loop iterated n times performs exactly 2n combining steps
and 4n nibble reads. -/
theorem hashLoop_counts (aram : Nat → Nat) :
    ∀ (n : Nat) (s : HashState),
      (hashLoop aram n s).steps = s.steps + 2 * n ∧
        (hashLoop aram n s).reads = s.reads + 4 * n := by
  intro n
  induction n with
  | zero => intro s; simp [hashLoop]
  | succ k ih =>
    intro s
    have h := ih (hashIter aram s)
    have h2 := hashIter_counts aram s
    simp only [hashLoop] at h ⊢
    omega

/-- Step-count projection of hashLoop_counts, shaped for rewriting. -/
theorem hashLoop_steps_eq (aram : Nat → Nat) (n : Nat) (s : HashState) :
    (hashLoop aram n s).steps = s.steps + 2 * n :=
  (hashLoop_counts aram n s).1

/-- Read-count projection of hashLoop_counts, shaped for rewriting. -/
theorem hashLoop_reads_eq (aram : Nat → Nat) (n : Nat) (s : HashState) :
    (hashLoop aram n s).reads = s.reads + 4 * n :=
  (hashLoop_counts aram n s).2

set_option maxRecDepth 10000 in
/-- Combining-step and nibble-read counts of one full DoCardHash run, in
terms of the new_counter value of the source. -/
theorem doCardHash_counts (mem aram : Nat → Nat) (p : CardUcodeParameters) :
    (DoCardHash mem aram p).steps =
        2 * (if p.input_size ≠ 0 then (p.input_size - 1) / 2 % M16 else 0xFFFF) +
          (if p.input_size % 2 = 0 then 1 else 0) ∧
      (DoCardHash mem aram p).reads =
        2 + 4 * (if p.input_size ≠ 0 then (p.input_size - 1) / 2 % M16 else 0xFFFF) +
          (if p.input_size % 2 = 0 then 2 else 0) := by
  simp only [DoCardHash, hashPhase, readD3]
  generalize (if p.input_size ≠ 0 then (p.input_size - 1) / 2 % M16 else 0xFFFF) = nc
  by_cases he : p.input_size % 2 = 0 <;>
    simp only [if_pos, if_neg, he, ite_true, ite_false, hashLoop_steps_eq,
      hashLoop_reads_eq] <;>
    refine ⟨?_, ?_⟩ <;>
    first
    | trivial
    | omega

/-- Claim C3: for every request, the number of combining-step invocations
equals 2 * pair_count, plus one more exactly when input_size is even,
where pair_count is (input_size - 1) / 2 for nonzero input_size and the
preserved 16-bit underflow 0xFFFF for input_size = 0. -/
theorem c3_step_count (mem aram : Nat → Nat) (p : CardUcodeParameters)
    (h : p.input_size < 0x10000) :
    (DoCardHash mem aram p).steps =
      2 * (if p.input_size ≠ 0 then (p.input_size - 1) / 2 else 0xFFFF) +
        (if p.input_size % 2 = 0 then 1 else 0) := by
  obtain ⟨hc, -⟩ := doCardHash_counts mem aram p
  by_cases h0 : p.input_size = 0
  · simp [h0] at hc ⊢
    omega
  · simp [h0] at hc ⊢
    have hm : (p.input_size - 1) / 2 % M16 = (p.input_size - 1) / 2 :=
      Nat.mod_eq_of_lt (by simp [M16]; omega)
    rw [hm] at hc
    exact hc

/-- Witness for C3 at a concrete input: a 2-byte request performs
2 * 0 + 1 = 1 combining step. -/
theorem c3_step_count_witness :
    (⟨0, 0, 2, 0, 0⟩ : CardUcodeParameters).input_size < 0x10000 ∧
      (DoCardHash zeroMem zeroMem ⟨0, 0, 2, 0, 0⟩).steps =
        2 * (if (⟨0, 0, 2, 0, 0⟩ : CardUcodeParameters).input_size ≠ 0 then
              ((⟨0, 0, 2, 0, 0⟩ : CardUcodeParameters).input_size - 1) / 2 else 0xFFFF) +
          (if (⟨0, 0, 2, 0, 0⟩ : CardUcodeParameters).input_size % 2 = 0 then 1 else 0) :=
  ⟨by decide, c3_step_count zeroMem zeroMem ⟨0, 0, 2, 0, 0⟩ (by decide)⟩

/-- Claim C10: the hashing phase performs exactly 2 * input_size
accelerator nibble reads when input_size is at least 1 (counting the
initial prev1/prev2 reads) and exactly 0x40000 nibble reads when
input_size is 0, so the zero-length result is drawn from 0x40000 nibbles,
that is 0x10000 16-bit words, of pre-existing working-buffer contents. -/
theorem c10_nibble_read_count (mem aram : Nat → Nat) (p : CardUcodeParameters)
    (h : p.input_size < 0x10000) :
    (DoCardHash mem aram p).reads =
      if p.input_size = 0 then 0x40000 else 2 * p.input_size := by
  obtain ⟨-, hc⟩ := doCardHash_counts mem aram p
  by_cases h0 : p.input_size = 0
  · simp [h0] at hc ⊢
    omega
  · simp [h0] at hc ⊢
    have hm : (p.input_size - 1) / 2 % M16 = (p.input_size - 1) / 2 :=
      Nat.mod_eq_of_lt (by simp [M16]; omega)
    rw [hm] at hc
    by_cases he : p.input_size % 2 = 0 <;> simp [he] at hc <;> omega

/-- Witness for C10 at a concrete input: a 3-byte request performs
2 * 3 = 6 nibble reads. -/
theorem c10_nibble_read_count_witness :
    (⟨0, 0, 3, 0, 0⟩ : CardUcodeParameters).input_size < 0x10000 ∧
      (DoCardHash zeroMem zeroMem ⟨0, 0, 3, 0, 0⟩).reads =
        (if (⟨0, 0, 3, 0, 0⟩ : CardUcodeParameters).input_size = 0 then 0x40000
         else 2 * (⟨0, 0, 3, 0, 0⟩ : CardUcodeParameters).input_size) :=
  ⟨by decide, c10_nibble_read_count zeroMem zeroMem ⟨0, 0, 3, 0, 0⟩ (by decide)⟩

/-- The main copy loop appends exactly one written word per pair. -/
theorem loadWords_writtenWords_length (buffer : Nat → Nat) (s0 : LoadState) :
    ∀ k, (loadWords buffer s0 k).writtenWords.length = s0.writtenWords.length + k := by
  intro k
  induction k with
  | zero => simp [loadWords]
  | succ n ih => simp [loadWords, writeD3, ih]; omega

/-- The main copy loop adds exactly the first 2k buffer bytes to the
running sum, mod M32. -/
theorem loadWords_sum (buffer : Nat → Nat) (s0 : LoadState) (hs : s0.sum < M32) :
    ∀ k, (loadWords buffer s0 k).sum =
      (s0.sum + ((List.range (2 * k)).map buffer).sum) % M32 := by
  intro k
  induction k with
  | zero => simp [loadWords, Nat.mod_eq_of_lt hs]
  | succ n ih =>
    have h2 : 2 * (n + 1) = 2 * n + 1 + 1 := by omega
    simp only [loadWords, writeD3, h2, List.range_succ, List.map_append, List.sum_append, ih]
    simp [M32]
    omega

/-- Every buffer index the main copy loop reads is below 2k. -/
theorem loadWords_bufferReads_bound (buffer : Nat → Nat) (s0 : LoadState) (bound : Nat)
    (h0 : ∀ j ∈ s0.bufferReads, j < bound) :
    ∀ k, 2 * k ≤ bound → ∀ j ∈ (loadWords buffer s0 k).bufferReads, j < bound := by
  intro k
  induction k with
  | zero => intro _ j hj; exact h0 j hj
  | succ n ih =>
    intro hk j hj
    simp only [loadWords, writeD3, List.mem_append] at hj
    rcases hj with hj | hj
    · exact ih (by omega) j hj
    · simp at hj; omega

/-- The bytes the model feeds into the load phase are below 0x100. -/
theorem doCardHash_buffer_lt (mem : Nat → Nat) (base j : Nat) :
    mem (base + j) % 0x100 < 0x100 :=
  Nat.mod_lt _ (by norm_num)

/-- The load-phase observables of a DoCardHash run coincide with those of
loadPhase applied to the byte view of guest memory at the input address. -/
theorem doCardHash_load_proj (mem aram : Nat → Nat) (p : CardUcodeParameters) :
    (DoCardHash mem aram p).sum =
        (loadPhase aram (fun j => mem (p.mram_input_addr + j) % 0x100) p.input_size
          p.aram_work_addr).sum ∧
      (DoCardHash mem aram p).writtenWords =
        (loadPhase aram (fun j => mem (p.mram_input_addr + j) % 0x100) p.input_size
          p.aram_work_addr).writtenWords ∧
      (DoCardHash mem aram p).bufferReads =
        (loadPhase aram (fun j => mem (p.mram_input_addr + j) % 0x100) p.input_size
          p.aram_work_addr).bufferReads :=
  ⟨rfl, rfl, rfl⟩

set_option maxRecDepth 10000 in
/-- Claim C4, amended: for every odd input_size up to 0xFFFB (the rounded
DMA length is a 16-bit value, so it wraps to 0 for input_size of 0xFFFD or
more, which the original claim does not account for), the load phase
writes one additional word packing the last input byte (high) with the
buffer byte at index input_size (low), adds only the last input byte (not
the padding byte) to the byte sum, and every buffer index it reads is
strictly below the rounded DMA length. -/
theorem c4_load_phase_amended (mem aram : Nat → Nat) (p : CardUcodeParameters)
    (hodd : p.input_size % 2 = 1) (hsize : p.input_size ≤ 0xFFFB) :
    (DoCardHash mem aram p).writtenWords.length = p.input_size / 2 + 1 ∧
      (DoCardHash mem aram p).writtenWords.getLast? =
        some ((mem (p.mram_input_addr + (p.input_size - 1)) % 0x100) * 0x100 +
          mem (p.mram_input_addr + p.input_size) % 0x100) ∧
      (DoCardHash mem aram p).sum =
        ((List.range p.input_size).map (fun i => mem (p.mram_input_addr + i) % 0x100)).sum %
          M32 ∧
      ∀ j ∈ (DoCardHash mem aram p).bufferReads, j < dmaSize p.input_size := by
  obtain ⟨hsum, hww, hbr⟩ := doCardHash_load_proj mem aram p
  rw [hsum, hww, hbr]
  set buffer := fun j => mem (p.mram_input_addr + j) % 0x100 with hbuf
  have hvlt : buffer (p.input_size - 1) * 0x100 + buffer p.input_size < M16 := by
    have h1 := doCardHash_buffer_lt mem p.mram_input_addr (p.input_size - 1)
    have h2 := doCardHash_buffer_lt mem p.mram_input_addr p.input_size
    simp only [hbuf, M16]
    omega
  have hm : (buffer (p.input_size - 1) * 0x100 + buffer p.input_size) % M16 =
      buffer (p.input_size - 1) * 0x100 + buffer p.input_size :=
    Nat.mod_eq_of_lt hvlt
  refine ⟨?_, ?_, ?_, ?_⟩
  · simp only [loadPhase, hodd, if_pos, ite_true, writeD3]
    simp [loadWords_writtenWords_length]
  · simp only [loadPhase, hodd, if_pos, ite_true, writeD3]
    simp [List.getLast?_concat, hm]
  · simp only [loadPhase, hodd, if_pos, ite_true, writeD3]
    have hws := loadWords_sum buffer ⟨aram, p.aram_work_addr, 0, [], []⟩
      (by simp [M32]) (p.input_size / 2)
    simp only [hws]
    have h2 : 2 * (p.input_size / 2) = p.input_size - 1 := by omega
    have h3 : p.input_size = (p.input_size - 1) + 1 := by omega
    rw [h2]
    conv at hm in buffer _ * _ + _ => skip
    conv_rhs => rw [h3, List.range_succ, List.map_append, List.sum_append]
    simp [Nat.mod_add_mod]
  · simp only [loadPhase, hodd, if_pos, ite_true, writeD3]
    intro j hj
    have hd : p.input_size < dmaSize p.input_size ∧ dmaSize p.input_size ≤ 0xFFFC := by
      simp only [dmaSize, M16]
      omega
    simp only [List.mem_append] at hj
    rcases hj with (hj | hj) | hj
    · refine loadWords_bufferReads_bound buffer _ (dmaSize p.input_size) ?_
        (p.input_size / 2) (by omega) j hj
      intro x hx
      simp at hx
    · simp at hj; omega
    · simp at hj; omega

/-- The odd-size tail of the load phase reads local-buffer index
input_size itself. -/
theorem loadPhase_odd_reads_size (aram0 buffer : Nat → Nat) (s w : Nat)
    (hodd : s % 2 = 1) :
    s ∈ (loadPhase aram0 buffer s w).bufferReads := by
  simp only [loadPhase, hodd, writeD3, if_pos, ite_true]
  simp [List.mem_append]

/-- Counterexample to claim C4 as stated: at input_size = 0xFFFF (odd),
the load phase reads local-buffer index 0xFFFF, but the rounded DMA length
is a 16-bit value and wraps to 0, so the accessed index is not below the
rounded copy length and the read goes past the bytes copied from guest
memory. -/
theorem c4_access_bound_counterexample :
    0xFFFF ∈ (DoCardHash zeroMem zeroMem ⟨0, 0, 0xFFFF, 0, 0⟩).bufferReads ∧
      ¬ (0xFFFF : Nat) < dmaSize 0xFFFF := by
  constructor
  · have h := (doCardHash_load_proj zeroMem zeroMem ⟨0, 0, 0xFFFF, 0, 0⟩).2.2
    rw [h]
    exact loadPhase_odd_reads_size zeroMem _ 0xFFFF 0 (by norm_num)
  · decide

/-- Witness for the amended claim C4 at a concrete input: a 3-byte
request. -/
theorem c4_load_phase_amended_witness :
    (⟨0, 0, 3, 0, 0⟩ : CardUcodeParameters).input_size % 2 = 1 ∧
      (⟨0, 0, 3, 0, 0⟩ : CardUcodeParameters).input_size ≤ 0xFFFB ∧
      ((DoCardHash zeroMem zeroMem ⟨0, 0, 3, 0, 0⟩).writtenWords.length =
          (⟨0, 0, 3, 0, 0⟩ : CardUcodeParameters).input_size / 2 + 1 ∧
        (DoCardHash zeroMem zeroMem ⟨0, 0, 3, 0, 0⟩).writtenWords.getLast? =
          some ((zeroMem ((⟨0, 0, 3, 0, 0⟩ : CardUcodeParameters).mram_input_addr +
              ((⟨0, 0, 3, 0, 0⟩ : CardUcodeParameters).input_size - 1)) % 0x100) * 0x100 +
            zeroMem ((⟨0, 0, 3, 0, 0⟩ : CardUcodeParameters).mram_input_addr +
              (⟨0, 0, 3, 0, 0⟩ : CardUcodeParameters).input_size) % 0x100) ∧
        (DoCardHash zeroMem zeroMem ⟨0, 0, 3, 0, 0⟩).sum =
          ((List.range (⟨0, 0, 3, 0, 0⟩ : CardUcodeParameters).input_size).map
            (fun i => zeroMem ((⟨0, 0, 3, 0, 0⟩ : CardUcodeParameters).mram_input_addr + i) %
              0x100)).sum % M32 ∧
        ∀ j ∈ (DoCardHash zeroMem zeroMem ⟨0, 0, 3, 0, 0⟩).bufferReads,
          j < dmaSize (⟨0, 0, 3, 0, 0⟩ : CardUcodeParameters).input_size) :=
  ⟨by decide, by decide,
    c4_load_phase_amended zeroMem zeroMem ⟨0, 0, 3, 0, 0⟩ (by decide) (by decide)⟩

/-- Counterexample to claim C8 as stated: a request whose decoded
input_size is 1 (less than 2) is neither rejected nor turned into a no-op;
the module runs the hash and writes the computed 32-bit value 0x05EFE0AA
to the output address, then reports done. -/
theorem c8_short_request_counterexample :
    HandleMail (fun a => if a = 7 then 1 else 0) zeroMem
        ⟨State.WaitingForAddress, false, CRC_GAMECUBE⟩ 0 =
      (⟨State.WaitingForNextTask, false, CRC_GAMECUBE⟩,
       [Effect.hashWrite 0 0x05EFE0AA, Effect.pushMail OutMail.dspDoneMail]) := by
  decide

/-- Claim C8, amended: for a request with input_size below 2 the module
does not assert and does not no-op; it executes the algorithm and writes
the hardware-faithful result to the output address.  For input_size = 1
the loop count (1 - 1) / 2 is zero and no combining step runs, so the
written value is the initial register constant 0x05EFE0AA regardless of
the input bytes and of the working buffer (the zero-size case is covered
by the regression-vector theorem). -/
theorem c8_short_request_amended (mem aram : Nat → Nat) (a u w out : Nat) :
    (DoCardHash mem aram ⟨a, u, 1, w, out⟩).value = 0x05EFE0AA ∧
      (DoCardHash mem aram ⟨a, u, 1, w, out⟩).output_addr = out := by
  constructor
  · unfold DoCardHash hashPhase
    simp only [loadPhase, hashLoop, readD3]
    rfl
  · rfl

/-- Reading a nibble from the all-zero working buffer yields 0. -/
theorem aramReadNibble_zeroMem (c : Nat) : aramReadNibble zeroMem c = 0 := by
  simp [aramReadNibble, zeroMem]

/-- Over a working buffer whose every nibble reads as 0, one hashing-loop
iteration performs two zero-input combining steps and keeps prev1 and
prev2 at 0. -/
theorem hashIter_allZero (aram : Nat → Nat) (h : ∀ c, aramReadNibble aram c = 0)
    (s : HashState) (hp1 : s.prev1 = 0) (hp2 : s.prev2 = 0) :
    (hashIter aram s).data = zeroStep (zeroStep s.data) ∧
      (hashIter aram s).prev1 = 0 ∧ (hashIter aram s).prev2 = 0 := by
  simp [hashIter, readD3, h, hp1, hp2, zeroStep]

/-- Over a working buffer whose every nibble reads as 0, the hashing loop
iterated n times performs exactly 2n zero-input combining steps on the
registers. -/
theorem hashLoop_allZero (aram : Nat → Nat) (h : ∀ c, aramReadNibble aram c = 0) :
    ∀ (n : Nat) (s : HashState), s.prev1 = 0 → s.prev2 = 0 →
      (hashLoop aram n s).data = zeroSteps (2 * n) s.data ∧
        (hashLoop aram n s).prev1 = 0 ∧ (hashLoop aram n s).prev2 = 0 := by
  intro n
  induction n with
  | zero => intro s hp1 hp2; exact ⟨rfl, hp1, hp2⟩
  | succ k ih =>
    intro s hp1 hp2
    obtain ⟨hd, q1, q2⟩ := hashIter_allZero aram h s hp1 hp2
    obtain ⟨hd2, r1, r2⟩ := ih (hashIter aram s) q1 q2
    refine ⟨?_, r1, r2⟩
    show (hashLoop aram k (hashIter aram s)).data = _
    rw [hd2, hd]
    rw [show 2 * (k + 1) = (2 * k + 1) + 1 by omega]
    rfl

/-- Appending one more zero-input combining step after n of them. -/
theorem zeroSteps_add (a b : Nat) :
    ∀ d, zeroSteps (a + b) d = zeroSteps a (zeroSteps b d) := by
  induction b with
  | zero => intro d; rfl
  | succ n ih =>
    intro d
    rw [show a + (n + 1) = (a + n) + 1 by omega]
    show zeroSteps (a + n) (zeroStep d) = _
    rw [ih (zeroStep d)]
    rfl

/-- A zero-input combining step applied after n of them equals n+1 of
them. -/
theorem zeroStep_zeroSteps (n : Nat) :
    ∀ d, zeroStep (zeroSteps n d) = zeroSteps (n + 1) d := by
  induction n with
  | zero => intro d; rfl
  | succ k ih =>
    intro d
    show zeroStep (zeroSteps k (zeroStep d)) = _
    rw [ih (zeroStep d)]
    rfl

set_option maxRecDepth 100000

theorem zeroSteps_block_1 : zeroSteps 512 zeroInitData = ⟨386561161, 4077750104, 3825722193, 4224, 8, 512⟩ := by
  decide

theorem zeroSteps_block_2 :
    zeroSteps 1024 zeroInitData = ⟨386561161, 2078141295, 2128588654, 302526600, 8, 1024⟩ := by
  rw [(by norm_num : (1024 : Nat) = 512 + 512), zeroSteps_add, zeroSteps_block_1]
  decide

theorem zeroSteps_block_3 :
    zeroSteps 1536 zeroInitData = ⟨386561161, 3188211269, 2818588237, 16938113, 8, 1536⟩ := by
  rw [(by norm_num : (1536 : Nat) = 512 + 1024), zeroSteps_add, zeroSteps_block_2]
  decide

theorem zeroSteps_block_4 :
    zeroSteps 2048 zeroInitData = ⟨386561161, 3053712882, 2701234547, 528392, 8, 2048⟩ := by
  rw [(by norm_num : (2048 : Nat) = 512 + 1536), zeroSteps_add, zeroSteps_block_3]
  decide

theorem zeroSteps_block_5 :
    zeroSteps 2560 zeroInitData = ⟨386561161, 1276713670, 1225883342, 302125185, 8, 2560⟩ := by
  rw [(by norm_num : (2560 : Nat) = 512 + 2048), zeroSteps_add, zeroSteps_block_4]
  decide

theorem zeroSteps_block_6 :
    zeroSteps 3072 zeroInitData = ⟨386561161, 1328390272, 1478860809, 160768, 8, 3072⟩ := by
  rw [(by norm_num : (3072 : Nat) = 512 + 2560), zeroSteps_add, zeroSteps_block_5]
  decide

theorem zeroSteps_block_7 :
    zeroSteps 3584 zeroInitData = ⟨386561161, 1818259420, 2087197653, 117571712, 8, 3584⟩ := by
  rw [(by norm_num : (3584 : Nat) = 512 + 3072), zeroSteps_add, zeroSteps_block_6]
  decide

theorem zeroSteps_block_8 :
    zeroSteps 4096 zeroInitData = ⟨386561161, 2579239932, 2327201789, 67117192, 8, 4096⟩ := by
  rw [(by norm_num : (4096 : Nat) = 512 + 3584), zeroSteps_add, zeroSteps_block_7]
  decide

theorem zeroSteps_block_9 :
    zeroSteps 4608 zeroInitData = ⟨386561161, 2118267727, 2018132814, 285344904, 8, 4608⟩ := by
  rw [(by norm_num : (4608 : Nat) = 512 + 4096), zeroSteps_add, zeroSteps_block_8]
  decide

theorem zeroSteps_block_10 :
    zeroSteps 5120 zeroInitData = ⟨386561161, 2723823887, 2690281863, 352994305, 8, 5120⟩ := by
  rw [(by norm_num : (5120 : Nat) = 512 + 4608), zeroSteps_add, zeroSteps_block_9]
  decide

theorem zeroSteps_block_11 :
    zeroSteps 5632 zeroInitData = ⟨386561161, 379239608, 328386617, 302120968, 8, 5632⟩ := by
  rw [(by norm_num : (5632 : Nat) = 512 + 5120), zeroSteps_add, zeroSteps_block_10]
  decide

theorem zeroSteps_block_12 :
    zeroSteps 6144 zeroInitData = ⟨386561161, 1817002549, 2068673212, 672768, 8, 6144⟩ := by
  rw [(by norm_num : (6144 : Nat) = 512 + 5632), zeroSteps_add, zeroSteps_block_11]
  decide

theorem zeroSteps_block_13 :
    zeroSteps 6656 zeroInitData = ⟨386561161, 483472610, 265499747, 67662856, 8, 6656⟩ := by
  rw [(by norm_num : (6656 : Nat) = 512 + 6144), zeroSteps_add, zeroSteps_block_12]
  decide

theorem zeroSteps_block_14 :
    zeroSteps 7168 zeroInitData = ⟨386561161, 4279693537, 4280206561, 386023561, 8, 7168⟩ := by
  rw [(by norm_num : (7168 : Nat) = 512 + 6656), zeroSteps_add, zeroSteps_block_13]
  decide

theorem zeroSteps_block_15 :
    zeroSteps 7680 zeroInitData = ⟨386561161, 1070226464, 700991521, 17326216, 8, 7680⟩ := by
  rw [(by norm_num : (7680 : Nat) = 512 + 7168), zeroSteps_add, zeroSteps_block_14]
  decide

theorem zeroSteps_block_16 :
    zeroSteps 8192 zeroInitData = ⟨386561161, 2782143449, 2983605081, 50881545, 8, 8192⟩ := by
  rw [(by norm_num : (8192 : Nat) = 512 + 7680), zeroSteps_add, zeroSteps_block_15]
  decide

theorem zeroSteps_block_17 :
    zeroSteps 8704 zeroInitData = ⟨386561161, 3864890500, 3814181005, 302002304, 8, 8704⟩ := by
  rw [(by norm_num : (8704 : Nat) = 512 + 8192), zeroSteps_add, zeroSteps_block_16]
  decide

theorem zeroSteps_block_18 :
    zeroSteps 9216 zeroInitData = ⟨386561161, 882086580, 831768124, 302653441, 8, 9216⟩ := by
  rw [(by norm_num : (9216 : Nat) = 512 + 8704), zeroSteps_add, zeroSteps_block_17]
  decide

theorem zeroSteps_block_19 :
    zeroSteps 9728 zeroInitData = ⟨386561161, 1589608592, 1219863696, 16797833, 8, 9728⟩ := by
  rw [(by norm_num : (9728 : Nat) = 512 + 9216), zeroSteps_add, zeroSteps_block_18]
  decide

theorem zeroSteps_block_20 :
    zeroSteps 10240 zeroInitData = ⟨386561161, 4221590403, 3902963467, 67653633, 8, 10240⟩ := by
  rw [(by norm_num : (10240 : Nat) = 512 + 9728), zeroSteps_add, zeroSteps_block_19]
  decide

theorem zeroSteps_block_21 :
    zeroSteps 10752 zeroInitData = ⟨386561161, 2909052513, 2925984481, 336072713, 8, 10752⟩ := by
  rw [(by norm_num : (10752 : Nat) = 512 + 10240), zeroSteps_add, zeroSteps_block_20]
  decide

theorem zeroSteps_block_22 :
    zeroSteps 11264 zeroInitData = ⟨386561161, 2757197385, 2807369416, 336069640, 8, 11264⟩ := by
  rw [(by norm_num : (11264 : Nat) = 512 + 10752), zeroSteps_add, zeroSteps_block_21]
  decide

theorem zeroSteps_block_23 :
    zeroSteps 11776 zeroInitData = ⟨386561161, 3857567745, 4041711624, 33555584, 8, 11776⟩ := by
  rw [(by norm_num : (11776 : Nat) = 512 + 11264), zeroSteps_add, zeroSteps_block_22]
  decide

theorem zeroSteps_block_24 :
    zeroSteps 12288 zeroInitData = ⟨386561161, 2840526016, 3192834113, 671752, 8, 12288⟩ := by
  rw [(by norm_num : (12288 : Nat) = 512 + 11776), zeroSteps_add, zeroSteps_block_23]
  decide

theorem zeroSteps_block_25 :
    zeroSteps 12800 zeroInitData = ⟨386561161, 1050105157, 680879556, 17318920, 8, 12800⟩ := by
  rw [(by norm_num : (12800 : Nat) = 512 + 12288), zeroSteps_add, zeroSteps_block_24]
  decide

theorem zeroSteps_block_26 :
    zeroSteps 13312 zeroInitData = ⟨386561161, 157625026, 426061379, 118124552, 8, 13312⟩ := by
  rw [(by norm_num : (13312 : Nat) = 512 + 12800), zeroSteps_add, zeroSteps_block_25]
  decide

theorem zeroSteps_block_27 :
    zeroSteps 13824 zeroInitData = ⟨386561161, 1377981247, 1159881526, 672896, 8, 13824⟩ := by
  rw [(by norm_num : (13824 : Nat) = 512 + 13312), zeroSteps_add, zeroSteps_block_26]
  decide

theorem zeroSteps_block_28 :
    zeroSteps 14336 zeroInitData = ⟨386561161, 2083410954, 2133737603, 336224256, 8, 14336⟩ := by
  rw [(by norm_num : (14336 : Nat) = 512 + 13824), zeroSteps_add, zeroSteps_block_27]
  decide

theorem zeroSteps_block_29 :
    zeroSteps 14848 zeroInitData = ⟨386561161, 2893125480, 2876892129, 268566528, 8, 14848⟩ := by
  rw [(by norm_num : (14848 : Nat) = 512 + 14336), zeroSteps_add, zeroSteps_block_28]
  decide

theorem zeroSteps_block_30 :
    zeroSteps 15360 zeroInitData = ⟨386561161, 1466639101, 1349079669, 268960769, 8, 15360⟩ := by
  rw [(by norm_num : (15360 : Nat) = 512 + 14848), zeroSteps_add, zeroSteps_block_29]
  decide

theorem zeroSteps_block_31 :
    zeroSteps 15872 zeroInitData = ⟨386561161, 921501935, 904754286, 336199688, 8, 15872⟩ := by
  rw [(by norm_num : (15872 : Nat) = 512 + 15360), zeroSteps_add, zeroSteps_block_30]
  decide

theorem zeroSteps_block_32 :
    zeroSteps 16384 zeroInitData = ⟨386561161, 4132384776, 3813606401, 34226304, 8, 16384⟩ := by
  rw [(by norm_num : (16384 : Nat) = 512 + 15872), zeroSteps_add, zeroSteps_block_31]
  decide

theorem zeroSteps_block_33 :
    zeroSteps 16896 zeroInitData = ⟨386561161, 3050884107, 2765142019, 100794497, 8, 16896⟩ := by
  rw [(by norm_num : (16896 : Nat) = 512 + 16384), zeroSteps_add, zeroSteps_block_32]
  decide

theorem zeroSteps_block_34 :
    zeroSteps 17408 zeroInitData = ⟨386561161, 3601389223, 3349201582, 100819072, 8, 17408⟩ := by
  rw [(by norm_num : (17408 : Nat) = 512 + 16896), zeroSteps_add, zeroSteps_block_33]
  decide

theorem zeroSteps_block_35 :
    zeroSteps 17920 zeroInitData = ⟨386561161, 2644343597, 2593483685, 268592129, 8, 17920⟩ := by
  rw [(by norm_num : (17920 : Nat) = 512 + 17408), zeroSteps_add, zeroSteps_block_34]
  decide

theorem zeroSteps_block_36 :
    zeroSteps 18432 zeroInitData = ⟨386561161, 1462630059, 1143338539, 67269641, 8, 18432⟩ := by
  rw [(by norm_num : (18432 : Nat) = 512 + 17920), zeroSteps_add, zeroSteps_block_35]
  decide

theorem zeroSteps_block_37 :
    zeroSteps 18944 zeroInitData = ⟨386561161, 3121053268, 3087874781, 352333824, 8, 18944⟩ := by
  rw [(by norm_num : (18944 : Nat) = 512 + 18432), zeroSteps_add, zeroSteps_block_36]
  decide

theorem zeroSteps_block_38 :
    zeroSteps 19456 zeroInitData = ⟨386561161, 3813048544, 4148461673, 50885632, 8, 19456⟩ := by
  rw [(by norm_num : (19456 : Nat) = 512 + 18944), zeroSteps_add, zeroSteps_block_37]
  decide

theorem zeroSteps_block_39 :
    zeroSteps 19968 zeroInitData = ⟨386561161, 1632067588, 1699684484, 318911497, 8, 19968⟩ := by
  rw [(by norm_num : (19968 : Nat) = 512 + 19456), zeroSteps_add, zeroSteps_block_38]
  decide

theorem zeroSteps_block_40 :
    zeroSteps 20480 zeroInitData = ⟨386561161, 2552341832, 2619966920, 318919689, 8, 20480⟩ := by
  rw [(by norm_num : (20480 : Nat) = 512 + 19968), zeroSteps_add, zeroSteps_block_39]
  decide

theorem zeroSteps_block_41 :
    zeroSteps 20992 zeroInitData = ⟨386561161, 811067726, 811052366, 386543753, 8, 20992⟩ := by
  rw [(by norm_num : (20992 : Nat) = 512 + 20480), zeroSteps_add, zeroSteps_block_40]
  decide

theorem zeroSteps_block_42 :
    zeroSteps 21504 zeroInitData = ⟨386561161, 4141978352, 4092183289, 302130304, 8, 21504⟩ := by
  rw [(by norm_num : (21504 : Nat) = 512 + 20992), zeroSteps_add, zeroSteps_block_41]
  decide

theorem zeroSteps_block_43 :
    zeroSteps 22016 zeroInitData = ⟨386561161, 3732640957, 3665014844, 318918664, 8, 22016⟩ := by
  rw [(by norm_num : (22016 : Nat) = 512 + 21504), zeroSteps_add, zeroSteps_block_42]
  decide

theorem zeroSteps_block_44 :
    zeroSteps 22528 zeroInitData = ⟨386561161, 3492228216, 3341642993, 13312, 8, 22528⟩ := by
  rw [(by norm_num : (22528 : Nat) = 512 + 22016), zeroSteps_add, zeroSteps_block_43]
  decide

theorem zeroSteps_block_45 :
    zeroSteps 23040 zeroInitData = ⟨386561161, 2172828123, 2441125339, 117985417, 8, 23040⟩ := by
  rw [(by norm_num : (23040 : Nat) = 512 + 22528), zeroSteps_add, zeroSteps_block_44]
  decide

theorem zeroSteps_block_46 :
    zeroSteps 23552 zeroInitData = ⟨386561161, 771634658, 1023291754, 101347329, 8, 23552⟩ := by
  rw [(by norm_num : (23552 : Nat) = 512 + 23040), zeroSteps_add, zeroSteps_block_45]
  decide

theorem zeroSteps_block_47 :
    zeroSteps 24064 zeroInitData = ⟨386561161, 908839309, 875141517, 352855177, 8, 24064⟩ := by
  rw [(by norm_num : (24064 : Nat) = 512 + 23552), zeroSteps_add, zeroSteps_block_46]
  decide

theorem zeroSteps_block_48 :
    zeroSteps 24576 zeroInitData = ⟨386561161, 2551005044, 2298940404, 100679689, 8, 24576⟩ := by
  rw [(by norm_num : (24576 : Nat) = 512 + 24064), zeroSteps_add, zeroSteps_block_47]
  decide

theorem zeroSteps_block_49 :
    zeroSteps 25088 zeroInitData = ⟨386561161, 2360402940, 2394588156, 352326793, 8, 25088⟩ := by
  rw [(by norm_num : (25088 : Nat) = 512 + 24576), zeroSteps_add, zeroSteps_block_48]
  decide

theorem zeroSteps_block_50 :
    zeroSteps 25600 zeroInitData = ⟨386561161, 1112140447, 1431043606, 548864, 8, 25600⟩ := by
  rw [(by norm_num : (25600 : Nat) = 512 + 25088), zeroSteps_add, zeroSteps_block_49]
  decide

theorem zeroSteps_block_51 :
    zeroSteps 26112 zeroInitData = ⟨386561161, 3542188956, 3492381588, 335705217, 8, 26112⟩ := by
  rw [(by norm_num : (26112 : Nat) = 512 + 25600), zeroSteps_add, zeroSteps_block_50]
  decide

theorem zeroSteps_block_52 :
    zeroSteps 26624 zeroInitData = ⟨386561161, 2890713065, 2823722856, 319300616, 8, 26624⟩ := by
  rw [(by norm_num : (26624 : Nat) = 512 + 26112), zeroSteps_add, zeroSteps_block_51]
  decide

theorem zeroSteps_block_53 :
    zeroSteps 27136 zeroInitData = ⟨386561161, 319891550, 52128863, 117452936, 8, 27136⟩ := by
  rw [(by norm_num : (27136 : Nat) = 512 + 26624), zeroSteps_add, zeroSteps_block_52]
  decide

theorem zeroSteps_block_54 :
    zeroSteps 27648 zeroInitData = ⟨386561161, 65714163, 367567739, 17326081, 8, 27648⟩ := by
  rw [(by norm_num : (27648 : Nat) = 512 + 27136), zeroSteps_add, zeroSteps_block_53]
  decide

theorem zeroSteps_block_55 :
    zeroSteps 28160 zeroInitData = ⟨386561161, 3778237962, 4147864074, 16924809, 8, 28160⟩ := by
  rw [(by norm_num : (28160 : Nat) = 512 + 27648), zeroSteps_add, zeroSteps_block_54]
  decide

theorem zeroSteps_block_56 :
    zeroSteps 28672 zeroInitData = ⟨386561161, 2418564969, 2217377768, 50877448, 8, 28672⟩ := by
  rw [(by norm_num : (28672 : Nat) = 512 + 28160), zeroSteps_add, zeroSteps_block_55]
  decide

theorem zeroSteps_block_57 :
    zeroSteps 29184 zeroInitData = ⟨386561161, 4194955967, 4161402423, 353005569, 8, 29184⟩ := by
  rw [(by norm_num : (29184 : Nat) = 512 + 28672), zeroSteps_add, zeroSteps_block_56]
  decide

theorem zeroSteps_block_58 :
    zeroSteps 29696 zeroInitData = ⟨386561161, 2569688872, 2401911712, 17457153, 8, 29696⟩ := by
  rw [(by norm_num : (29696 : Nat) = 512 + 29184), zeroSteps_add, zeroSteps_block_57]
  decide

theorem zeroSteps_block_59 :
    zeroSteps 30208 zeroInitData = ⟨386561161, 1064723605, 796292253, 118121601, 8, 30208⟩ := by
  rw [(by norm_num : (30208 : Nat) = 512 + 29696), zeroSteps_add, zeroSteps_block_58]
  decide

theorem zeroSteps_block_60 :
    zeroSteps 30720 zeroInitData = ⟨386561161, 2829835831, 2930354743, 285737097, 8, 30720⟩ := by
  rw [(by norm_num : (30720 : Nat) = 512 + 30208), zeroSteps_add, zeroSteps_block_59]
  decide

theorem zeroSteps_block_61 :
    zeroSteps 31232 zeroInitData = ⟨386561161, 2369887438, 2605299791, 16928776, 8, 31232⟩ := by
  rw [(by norm_num : (31232 : Nat) = 512 + 30720), zeroSteps_add, zeroSteps_block_60]
  decide

theorem zeroSteps_block_62 :
    zeroSteps 31744 zeroInitData = ⟨386561161, 43886788, 378902597, 50480136, 8, 31744⟩ := by
  rw [(by norm_num : (31744 : Nat) = 512 + 31232), zeroSteps_add, zeroSteps_block_61]
  decide

theorem zeroSteps_block_63 :
    zeroSteps 32256 zeroInitData = ⟨386561161, 3760506700, 3794728908, 352338953, 8, 32256⟩ := by
  rw [(by norm_num : (32256 : Nat) = 512 + 31744), zeroSteps_add, zeroSteps_block_62]
  decide

theorem zeroSteps_block_64 :
    zeroSteps 32768 zeroInitData = ⟨386561161, 2274359055, 2240672654, 352874504, 8, 32768⟩ := by
  rw [(by norm_num : (32768 : Nat) = 512 + 32256), zeroSteps_add, zeroSteps_block_63]
  decide

theorem zeroSteps_block_65 :
    zeroSteps 33280 zeroInitData = ⟨386561161, 519935827, 486515546, 352862336, 8, 33280⟩ := by
  rw [(by norm_num : (33280 : Nat) = 512 + 32768), zeroSteps_add, zeroSteps_block_64]
  decide

theorem zeroSteps_block_66 :
    zeroSteps 33792 zeroInitData = ⟨386561161, 1295958756, 1261868644, 285351945, 8, 33792⟩ := by
  rw [(by norm_num : (33792 : Nat) = 512 + 33280), zeroSteps_add, zeroSteps_block_65]
  decide

theorem zeroSteps_block_67 :
    zeroSteps 34304 zeroInitData = ⟨386561161, 1098059540, 1434004373, 50352136, 8, 34304⟩ := by
  rw [(by norm_num : (34304 : Nat) = 512 + 33792), zeroSteps_add, zeroSteps_block_66]
  decide

theorem zeroSteps_block_68 :
    zeroSteps 34816 zeroInitData = ⟨386561161, 3422128967, 3422277454, 386412672, 8, 34816⟩ := by
  rw [(by norm_num : (34816 : Nat) = 512 + 34304), zeroSteps_add, zeroSteps_block_67]
  decide

theorem zeroSteps_block_69 :
    zeroSteps 35328 zeroInitData = ⟨386561161, 4102563912, 4152522944, 335553537, 8, 35328⟩ := by
  rw [(by norm_num : (35328 : Nat) = 512 + 34816), zeroSteps_add, zeroSteps_block_68]
  decide

theorem zeroSteps_block_70 :
    zeroSteps 35840 zeroInitData = ⟨386561161, 3528974468, 3579695244, 268452993, 8, 35840⟩ := by
  rw [(by norm_num : (35840 : Nat) = 512 + 35328), zeroSteps_add, zeroSteps_block_69]
  decide

theorem zeroSteps_block_71 :
    zeroSteps 36352 zeroInitData = ⟨386561161, 1831974805, 1781655453, 269100161, 8, 36352⟩ := by
  rw [(by norm_num : (36352 : Nat) = 512 + 35840), zeroSteps_add, zeroSteps_block_70]
  decide

theorem zeroSteps_block_72 :
    zeroSteps 36864 zeroInitData = ⟨386561161, 628367097, 645283568, 336090240, 8, 36864⟩ := by
  rw [(by norm_num : (36864 : Nat) = 512 + 36352), zeroSteps_add, zeroSteps_block_71]
  decide

theorem zeroSteps_block_73 :
    zeroSteps 37376 zeroInitData = ⟨386561161, 1541942097, 1609042896, 319443976, 8, 37376⟩ := by
  rw [(by norm_num : (37376 : Nat) = 512 + 36864), zeroSteps_add, zeroSteps_block_72]
  decide

theorem zeroSteps_block_74 :
    zeroSteps 37888 zeroInitData = ⟨386561161, 759190180, 994583077, 16909320, 8, 37888⟩ := by
  rw [(by norm_num : (37888 : Nat) = 512 + 37376), zeroSteps_add, zeroSteps_block_73]
  decide

theorem zeroSteps_block_75 :
    zeroSteps 38400 zeroInitData = ⟨386561161, 2786690058, 2803471362, 369779841, 8, 38400⟩ := by
  rw [(by norm_num : (38400 : Nat) = 512 + 37888), zeroSteps_add, zeroSteps_block_74]
  decide

theorem zeroSteps_block_76 :
    zeroSteps 38912 zeroInitData = ⟨386561161, 1702545810, 2003873051, 83890176, 8, 38912⟩ := by
  rw [(by norm_num : (38912 : Nat) = 512 + 38400), zeroSteps_add, zeroSteps_block_75]
  decide

theorem zeroSteps_block_77 :
    zeroSteps 39424 zeroInitData = ⟨386561161, 276674043, 360572275, 302654465, 8, 39424⟩ := by
  rw [(by norm_num : (39424 : Nat) = 512 + 38912), zeroSteps_add, zeroSteps_block_76]
  decide

theorem zeroSteps_block_78 :
    zeroSteps 39936 zeroInitData = ⟨386561161, 1536971063, 1302222135, 17330313, 8, 39936⟩ := by
  rw [(by norm_num : (39936 : Nat) = 512 + 39424), zeroSteps_add, zeroSteps_block_77]
  decide

theorem zeroSteps_block_79 :
    zeroSteps 40448 zeroInitData = ⟨386561161, 3505068398, 3269684719, 84017160, 8, 40448⟩ := by
  rw [(by norm_num : (40448 : Nat) = 512 + 39936), zeroSteps_add, zeroSteps_block_78]
  decide

theorem zeroSteps_block_80 :
    zeroSteps 40960 zeroInitData = ⟨386561161, 2839607154, 3208676219, 17432704, 8, 40960⟩ := by
  rw [(by norm_num : (40960 : Nat) = 512 + 40448), zeroSteps_add, zeroSteps_block_79]
  decide

theorem zeroSteps_block_81 :
    zeroSteps 41472 zeroInitData = ⟨386561161, 2624530718, 2657439006, 352325769, 8, 41472⟩ := by
  rw [(by norm_num : (41472 : Nat) = 512 + 40960), zeroSteps_add, zeroSteps_block_80]
  decide

theorem zeroSteps_block_82 :
    zeroSteps 41984 zeroInitData = ⟨386561161, 3266208442, 3249297075, 336085120, 8, 41984⟩ := by
  rw [(by norm_num : (41984 : Nat) = 512 + 41472), zeroSteps_add, zeroSteps_block_81]
  decide

theorem zeroSteps_block_83 :
    zeroSteps 42496 zeroInitData = ⟨386561161, 540231341, 540742189, 386015241, 8, 42496⟩ := by
  rw [(by norm_num : (42496 : Nat) = 512 + 41984), zeroSteps_add, zeroSteps_block_82]
  decide

theorem zeroSteps_block_84 :
    zeroSteps 43008 zeroInitData = ⟨386561161, 890435137, 571532873, 550017, 8, 43008⟩ := by
  rw [(by norm_num : (43008 : Nat) = 512 + 42496), zeroSteps_add, zeroSteps_block_83]
  decide

theorem zeroSteps_block_85 :
    zeroSteps 43520 zeroInitData = ⟨386561161, 2397061194, 2346730699, 302673928, 8, 43520⟩ := by
  rw [(by norm_num : (43520 : Nat) = 512 + 43008), zeroSteps_add, zeroSteps_block_84]
  decide

theorem zeroSteps_block_86 :
    zeroSteps 44032 zeroInitData = ⟨386561161, 2036889979, 2086803963, 301995017, 8, 44032⟩ := by
  rw [(by norm_num : (44032 : Nat) = 512 + 43520), zeroSteps_add, zeroSteps_block_85]
  decide

theorem zeroSteps_block_87 :
    zeroSteps 44544 zeroInitData = ⟨386561161, 3850273072, 3849762105, 386023552, 8, 44544⟩ := by
  rw [(by norm_num : (44544 : Nat) = 512 + 44032), zeroSteps_add, zeroSteps_block_86]
  decide

theorem zeroSteps_block_88 :
    zeroSteps 45056 zeroInitData = ⟨386561161, 3159949074, 2824010515, 50360456, 8, 45056⟩ := by
  rw [(by norm_num : (45056 : Nat) = 512 + 44544), zeroSteps_add, zeroSteps_block_87]
  decide

theorem zeroSteps_block_89 :
    zeroSteps 45568 zeroInitData = ⟨386561161, 2887856828, 3139642037, 550016, 8, 45568⟩ := by
  rw [(by norm_num : (45568 : Nat) = 512 + 45056), zeroSteps_add, zeroSteps_block_88]
  decide

theorem zeroSteps_block_90 :
    zeroSteps 46080 zeroInitData = ⟨386561161, 3314650881, 3600408329, 67249281, 8, 46080⟩ := by
  rw [(by norm_num : (46080 : Nat) = 512 + 45568), zeroSteps_add, zeroSteps_block_89]
  decide

theorem zeroSteps_block_91 :
    zeroSteps 46592 zeroInitData = ⟨386561161, 733020198, 784012463, 302014464, 8, 46592⟩ := by
  rw [(by norm_num : (46592 : Nat) = 512 + 46080), zeroSteps_add, zeroSteps_block_90]
  decide

theorem zeroSteps_block_92 :
    zeroSteps 47104 zeroInitData = ⟨386561161, 1029892506, 1046513947, 336073736, 8, 47104⟩ := by
  rw [(by norm_num : (47104 : Nat) = 512 + 46592), zeroSteps_add, zeroSteps_block_91]
  decide

theorem zeroSteps_block_93 :
    zeroSteps 47616 zeroInitData = ⟨386561161, 2050723606, 2067376927, 369643648, 8, 47616⟩ := by
  rw [(by norm_num : (47616 : Nat) = 512 + 47104), zeroSteps_add, zeroSteps_block_92]
  decide

theorem zeroSteps_block_94 :
    zeroSteps 48128 zeroInitData = ⟨386561161, 3550370067, 3516157338, 352346112, 8, 48128⟩ := by
  rw [(by norm_num : (48128 : Nat) = 512 + 47616), zeroSteps_add, zeroSteps_block_93]
  decide

theorem zeroSteps_block_95 :
    zeroSteps 48640 zeroInitData = ⟨386561161, 3474347196, 3675550772, 50877441, 8, 48640⟩ := by
  rw [(by norm_num : (48640 : Nat) = 512 + 48128), zeroSteps_add, zeroSteps_block_94]
  decide

theorem zeroSteps_block_96 :
    zeroSteps 49152 zeroInitData = ⟨386561161, 2577758270, 2293184566, 100676737, 8, 49152⟩ := by
  rw [(by norm_num : (49152 : Nat) = 512 + 48640), zeroSteps_add, zeroSteps_block_95]
  decide

theorem zeroSteps_block_97 :
    zeroSteps 49664 zeroInitData = ⟨386561161, 675966369, 1011359136, 50857096, 8, 49664⟩ := by
  rw [(by norm_num : (49664 : Nat) = 512 + 49152), zeroSteps_add, zeroSteps_block_96]
  decide

theorem zeroSteps_block_98 :
    zeroSteps 50176 zeroInitData = ⟨386561161, 2940763402, 2907203850, 353001609, 8, 50176⟩ := by
  rw [(by norm_num : (50176 : Nat) = 512 + 49664), zeroSteps_add, zeroSteps_block_97]
  decide

theorem zeroSteps_block_99 :
    zeroSteps 50688 zeroInitData = ⟨386561161, 2393475061, 2611206133, 33563785, 8, 50688⟩ := by
  rw [(by norm_num : (50688 : Nat) = 512 + 50176), zeroSteps_add, zeroSteps_block_98]
  decide

theorem zeroSteps_block_100 :
    zeroSteps 51200 zeroInitData = ⟨386561161, 1505499648, 1270106761, 84026368, 8, 51200⟩ := by
  rw [(by norm_num : (51200 : Nat) = 512 + 50688), zeroSteps_add, zeroSteps_block_99]
  decide

theorem zeroSteps_block_101 :
    zeroSteps 51712 zeroInitData = ⟨386561161, 1923124439, 1889570007, 353006729, 8, 51712⟩ := by
  rw [(by norm_num : (51712 : Nat) = 512 + 51200), zeroSteps_add, zeroSteps_block_100]
  decide

theorem zeroSteps_block_102 :
    zeroSteps 52224 zeroInitData = ⟨386561161, 3480931496, 3480930344, 386560009, 8, 52224⟩ := by
  rw [(by norm_num : (52224 : Nat) = 512 + 51712), zeroSteps_add, zeroSteps_block_101]
  decide

theorem zeroSteps_block_103 :
    zeroSteps 52736 zeroInitData = ⟨386561161, 4277262010, 3942367802, 50356233, 8, 52736⟩ := by
  rw [(by norm_num : (52736 : Nat) = 512 + 52224), zeroSteps_add, zeroSteps_block_102]
  decide

theorem zeroSteps_block_104 :
    zeroSteps 53248 zeroInitData = ⟨386561161, 3650507563, 3398702883, 67645569, 8, 53248⟩ := by
  rw [(by norm_num : (53248 : Nat) = 512 + 52736), zeroSteps_add, zeroSteps_block_103]
  decide

theorem zeroSteps_block_105 :
    zeroSteps 53760 zeroInitData = ⟨386561161, 1275300622, 1241759502, 285884553, 8, 53760⟩ := by
  rw [(by norm_num : (53760 : Nat) = 512 + 53248), zeroSteps_add, zeroSteps_block_104]
  decide

theorem zeroSteps_block_106 :
    zeroSteps 54272 zeroInitData = ⟨386561161, 3041115978, 2772672459, 118117384, 8, 54272⟩ := by
  rw [(by norm_num : (54272 : Nat) = 512 + 53760), zeroSteps_add, zeroSteps_block_105]
  decide

theorem zeroSteps_block_107 :
    zeroSteps 54784 zeroInitData = ⟨386561161, 3111580847, 3161886758, 302649344, 8, 54784⟩ := by
  rw [(by norm_num : (54784 : Nat) = 512 + 54272), zeroSteps_add, zeroSteps_block_106]
  decide

theorem zeroSteps_block_108 :
    zeroSteps 55296 zeroInitData = ⟨386561161, 3962635772, 3912454525, 302522376, 8, 55296⟩ := by
  rw [(by norm_num : (55296 : Nat) = 512 + 54784), zeroSteps_add, zeroSteps_block_107]
  decide

theorem zeroSteps_block_109 :
    zeroSteps 55808 zeroInitData = ⟨386561161, 345027466, 294695811, 302675072, 8, 55808⟩ := by
  rw [(by norm_num : (55808 : Nat) = 512 + 55296), zeroSteps_add, zeroSteps_block_108]
  decide

theorem zeroSteps_block_110 :
    zeroSteps 56320 zeroInitData = ⟨386561161, 3569200532, 3602898197, 352846856, 8, 56320⟩ := by
  rw [(by norm_num : (56320 : Nat) = 512 + 55808), zeroSteps_add, zeroSteps_block_109]
  decide

theorem zeroSteps_block_111 :
    zeroSteps 56832 zeroInitData = ⟨386561161, 837675138, 938313859, 285873288, 8, 56832⟩ := by
  rw [(by norm_num : (56832 : Nat) = 512 + 56320), zeroSteps_add, zeroSteps_block_110]
  decide

theorem zeroSteps_block_112 :
    zeroSteps 57344 zeroInitData = ⟨386561161, 863771157, 880159260, 268452992, 8, 57344⟩ := by
  rw [(by norm_num : (57344 : Nat) = 512 + 56832), zeroSteps_add, zeroSteps_block_111]
  decide

theorem zeroSteps_block_113 :
    zeroSteps 57856 zeroInitData = ⟨386561161, 3429671639, 3379487446, 302527624, 8, 57856⟩ := by
  rw [(by norm_num : (57856 : Nat) = 512 + 57344), zeroSteps_add, zeroSteps_block_112]
  decide

theorem zeroSteps_block_114 :
    zeroSteps 58368 zeroInitData = ⟨386561161, 2429529728, 2244467209, 33685504, 8, 58368⟩ := by
  rw [(by norm_num : (58368 : Nat) = 512 + 57856), zeroSteps_add, zeroSteps_block_113]
  decide

theorem zeroSteps_block_115 :
    zeroSteps 58880 zeroInitData = ⟨386561161, 3186099308, 3102367845, 302518400, 8, 58880⟩ := by
  rw [(by norm_num : (58880 : Nat) = 512 + 58368), zeroSteps_add, zeroSteps_block_114]
  decide

theorem zeroSteps_block_116 :
    zeroSteps 59392 zeroInitData = ⟨386561161, 977224683, 1060468586, 302006280, 8, 59392⟩ := by
  rw [(by norm_num : (59392 : Nat) = 512 + 58880), zeroSteps_add, zeroSteps_block_115]
  decide

theorem zeroSteps_block_117 :
    zeroSteps 59904 zeroInitData = ⟨386561161, 666942315, 583704555, 302010377, 8, 59904⟩ := by
  rw [(by norm_num : (59904 : Nat) = 512 + 59392), zeroSteps_add, zeroSteps_block_116]
  decide

theorem zeroSteps_block_118 :
    zeroSteps 60416 zeroInitData = ⟨386561161, 2582120057, 2666005105, 269119617, 8, 60416⟩ := by
  rw [(by norm_num : (60416 : Nat) = 512 + 59904), zeroSteps_add, zeroSteps_block_117]
  decide

theorem zeroSteps_block_119 :
    zeroSteps 60928 zeroInitData = ⟨386561161, 62584761, 12231472, 336207872, 8, 60928⟩ := by
  rw [(by norm_num : (60928 : Nat) = 512 + 60416), zeroSteps_add, zeroSteps_block_118]
  decide

theorem zeroSteps_block_120 :
    zeroSteps 61440 zeroInitData = ⟨386561161, 667599050, 885162050, 67253249, 8, 61440⟩ := by
  rw [(by norm_num : (61440 : Nat) = 512 + 60928), zeroSteps_add, zeroSteps_block_119]
  decide

theorem zeroSteps_block_121 :
    zeroSteps 61952 zeroInitData = ⟨386561161, 696971887, 713224934, 335705088, 8, 61952⟩ := by
  rw [(by norm_num : (61952 : Nat) = 512 + 61440), zeroSteps_add, zeroSteps_block_120]
  decide

theorem zeroSteps_block_122 :
    zeroSteps 62464 zeroInitData = ⟨386561161, 970241161, 701796488, 118116488, 8, 62464⟩ := by
  rw [(by norm_num : (62464 : Nat) = 512 + 61952), zeroSteps_add, zeroSteps_block_121]
  decide

theorem zeroSteps_block_123 :
    zeroSteps 62976 zeroInitData = ⟨386561161, 3010537117, 2759533085, 28681, 8, 62976⟩ := by
  rw [(by norm_num : (62976 : Nat) = 512 + 62464), zeroSteps_add, zeroSteps_block_122]
  decide

theorem zeroSteps_block_124 :
    zeroSteps 63488 zeroInitData = ⟨386561161, 4003126522, 4187671803, 681096, 8, 63488⟩ := by
  rw [(by norm_num : (63488 : Nat) = 512 + 62976), zeroSteps_add, zeroSteps_block_123]
  decide

theorem zeroSteps_block_125 :
    zeroSteps 64000 zeroInitData = ⟨386561161, 3828039795, 4146819314, 67781640, 8, 64000⟩ := by
  rw [(by norm_num : (64000 : Nat) = 512 + 63488), zeroSteps_add, zeroSteps_block_124]
  decide

theorem zeroSteps_block_126 :
    zeroSteps 64512 zeroInitData = ⟨386561161, 1710141267, 1710009298, 386428936, 8, 64512⟩ := by
  rw [(by norm_num : (64512 : Nat) = 512 + 64000), zeroSteps_add, zeroSteps_block_125]
  decide

theorem zeroSteps_block_127 :
    zeroSteps 65024 zeroInitData = ⟨386561161, 2889105980, 2856208060, 285241353, 8, 65024⟩ := by
  rw [(by norm_num : (65024 : Nat) = 512 + 64512), zeroSteps_add, zeroSteps_block_126]
  decide

theorem zeroSteps_block_128 :
    zeroSteps 65536 zeroInitData = ⟨386561161, 616465022, 566142718, 302665737, 8, 0⟩ := by
  rw [(by norm_num : (65536 : Nat) = 512 + 65024), zeroSteps_add, zeroSteps_block_127]
  decide

theorem zeroSteps_block_129 :
    zeroSteps 66048 zeroInitData = ⟨386561161, 870211026, 836009434, 352343169, 8, 512⟩ := by
  rw [(by norm_num : (66048 : Nat) = 512 + 65536), zeroSteps_add, zeroSteps_block_128]
  decide

theorem zeroSteps_block_130 :
    zeroSteps 66560 zeroInitData = ⟨386561161, 847306710, 881524566, 285234185, 8, 1024⟩ := by
  rw [(by norm_num : (66560 : Nat) = 512 + 66048), zeroSteps_add, zeroSteps_block_129]
  decide

theorem zeroSteps_block_131 :
    zeroSteps 67072 zeroInitData = ⟨386561161, 3690445850, 3656907794, 352990337, 8, 1536⟩ := by
  rw [(by norm_num : (67072 : Nat) = 512 + 66560), zeroSteps_add, zeroSteps_block_130]
  decide

theorem zeroSteps_block_132 :
    zeroSteps 67584 zeroInitData = ⟨386561161, 1547552385, 1212007936, 51016712, 8, 2048⟩ := by
  rw [(by norm_num : (67584 : Nat) = 512 + 67072), zeroSteps_add, zeroSteps_block_131]
  decide

theorem zeroSteps_block_133 :
    zeroSteps 68096 zeroInitData = ⟨386561161, 1287361074, 1253155515, 285230080, 8, 2560⟩ := by
  rw [(by norm_num : (68096 : Nat) = 512 + 67584), zeroSteps_add, zeroSteps_block_132]
  decide

theorem zeroSteps_block_134 :
    zeroSteps 68608 zeroInitData = ⟨386561161, 2032727008, 2032310248, 385880193, 8, 3072⟩ := by
  rw [(by norm_num : (68608 : Nat) = 512 + 68096), zeroSteps_add, zeroSteps_block_133]
  decide

theorem zeroSteps_block_135 :
    zeroSteps 69120 zeroInitData = ⟨386561161, 2157119638, 2274966558, 268451841, 8, 3584⟩ := by
  rw [(by norm_num : (69120 : Nat) = 512 + 68608), zeroSteps_add, zeroSteps_block_134]
  decide

theorem zeroSteps_block_136 :
    zeroSteps 69632 zeroInitData = ⟨386561161, 1988299133, 1955293556, 352457856, 8, 4096⟩ := by
  rw [(by norm_num : (69632 : Nat) = 512 + 69120), zeroSteps_add, zeroSteps_block_135]
  decide

theorem zeroSteps_block_137 :
    zeroSteps 70144 zeroInitData = ⟨386561161, 1851938872, 2020232241, 16932992, 8, 4608⟩ := by
  rw [(by norm_num : (70144 : Nat) = 512 + 69632), zeroSteps_add, zeroSteps_block_136]
  decide

theorem zeroSteps_block_138 :
    zeroSteps 70656 zeroInitData = ⟨386561161, 839973622, 890437239, 268988424, 8, 5120⟩ := by
  rw [(by norm_num : (70656 : Nat) = 512 + 70144), zeroSteps_add, zeroSteps_block_137]
  decide

theorem zeroSteps_block_139 :
    zeroSteps 71168 zeroInitData = ⟨386561161, 1497914500, 1530944653, 352482432, 8, 5632⟩ := by
  rw [(by norm_num : (71168 : Nat) = 512 + 70656), zeroSteps_add, zeroSteps_block_138]
  decide

theorem zeroSteps_block_140 :
    zeroSteps 71680 zeroInitData = ⟨386561161, 3397745297, 3465494040, 318779392, 8, 6144⟩ := by
  rw [(by norm_num : (71680 : Nat) = 512 + 71168), zeroSteps_add, zeroSteps_block_139]
  decide

theorem zeroSteps_block_141 :
    zeroSteps 72192 zeroInitData = ⟨386561161, 1047128058, 979490682, 318915593, 8, 6656⟩ := by
  rw [(by norm_num : (72192 : Nat) = 512 + 71680), zeroSteps_add, zeroSteps_block_140]
  decide

theorem zeroSteps_block_142 :
    zeroSteps 72704 zeroInitData = ⟨386561161, 433112867, 198222755, 84545545, 8, 7168⟩ := by
  rw [(by norm_num : (72704 : Nat) = 512 + 72192), zeroSteps_add, zeroSteps_block_141]
  decide

theorem zeroSteps_block_143 :
    zeroSteps 73216 zeroInitData = ⟨386561161, 3503087928, 3570319793, 319312896, 8, 7680⟩ := by
  rw [(by norm_num : (73216 : Nat) = 512 + 72704), zeroSteps_add, zeroSteps_block_142]
  decide

theorem zeroSteps_block_144 :
    zeroSteps 73728 zeroInitData = ⟨386561161, 2334374771, 2669923323, 50988033, 8, 8192⟩ := by
  rw [(by norm_num : (73728 : Nat) = 512 + 73216), zeroSteps_add, zeroSteps_block_143]
  decide

theorem zeroSteps_block_145 :
    zeroSteps 74240 zeroInitData = ⟨386561161, 1683359932, 1901488181, 34214912, 8, 8704⟩ := by
  rw [(by norm_num : (74240 : Nat) = 512 + 73728), zeroSteps_add, zeroSteps_block_144]
  decide

theorem zeroSteps_block_146 :
    zeroSteps 74752 zeroInitData = ⟨386561161, 3583116239, 3331982278, 67269760, 8, 9216⟩ := by
  rw [(by norm_num : (74752 : Nat) = 512 + 74240), zeroSteps_add, zeroSteps_block_145]
  decide

theorem zeroSteps_block_147 :
    zeroSteps 75264 zeroInitData = ⟨386561161, 2347911713, 2599427624, 101195904, 8, 9728⟩ := by
  rw [(by norm_num : (75264 : Nat) = 512 + 74752), zeroSteps_add, zeroSteps_block_146]
  decide

theorem zeroSteps_block_148 :
    zeroSteps 75776 zeroInitData = ⟨386561161, 2457631332, 2273073892, 34231305, 8, 10240⟩ := by
  rw [(by norm_num : (75776 : Nat) = 512 + 75264), zeroSteps_add, zeroSteps_block_147]
  decide

theorem zeroSteps_block_149 :
    zeroSteps 76288 zeroInitData = ⟨386561161, 1411934609, 1193302416, 67257480, 8, 10752⟩ := by
  rw [(by norm_num : (76288 : Nat) = 512 + 75776), zeroSteps_add, zeroSteps_block_148]
  decide

theorem zeroSteps_block_150 :
    zeroSteps 76800 zeroInitData = ⟨386561161, 808679783, 624504174, 33562752, 8, 11264⟩ := by
  rw [(by norm_num : (76800 : Nat) = 512 + 76288), zeroSteps_add, zeroSteps_block_149]
  decide

theorem zeroSteps_block_151 :
    zeroSteps 77312 zeroInitData = ⟨386561161, 2285337731, 2386520074, 285368320, 8, 11776⟩ := by
  rw [(by norm_num : (77312 : Nat) = 512 + 76800), zeroSteps_add, zeroSteps_block_150]
  decide

theorem zeroSteps_block_152 :
    zeroSteps 77824 zeroInitData = ⟨386561161, 33131200, 368700096, 50992265, 8, 12288⟩ := by
  rw [(by norm_num : (77824 : Nat) = 512 + 77312), zeroSteps_add, zeroSteps_block_151]
  decide

theorem zeroSteps_block_153 :
    zeroSteps 78336 zeroInitData = ⟨386561161, 1102702534, 1455028166, 681097, 8, 12800⟩ := by
  rw [(by norm_num : (78336 : Nat) = 512 + 77824), zeroSteps_add, zeroSteps_block_152]
  decide

theorem zeroSteps_block_154 :
    zeroSteps 78848 zeroInitData = ⟨386561161, 2992039649, 3075908328, 302657664, 8, 13312⟩ := by
  rw [(by norm_num : (78848 : Nat) = 512 + 78336), zeroSteps_add, zeroSteps_block_153]
  decide

theorem zeroSteps_block_155 :
    zeroSteps 79360 zeroInitData = ⟨386561161, 365151191, 96704478, 118104192, 8, 13824⟩ := by
  rw [(by norm_num : (79360 : Nat) = 512 + 78848), zeroSteps_add, zeroSteps_block_154]
  decide

theorem zeroSteps_block_156 :
    zeroSteps 79872 zeroInitData = ⟨386561161, 208194858, 174123434, 285364233, 8, 14336⟩ := by
  rw [(by norm_num : (79872 : Nat) = 512 + 79360), zeroSteps_add, zeroSteps_block_155]
  decide

theorem zeroSteps_block_157 :
    zeroSteps 80384 zeroInitData = ⟨386561161, 3561460554, 3545203651, 268592128, 8, 14848⟩ := by
  rw [(by norm_num : (80384 : Nat) = 512 + 79872), zeroSteps_add, zeroSteps_block_156]
  decide

theorem zeroSteps_block_158 :
    zeroSteps 80896 zeroInitData = ⟨386561161, 1856301301, 2141489396, 101323912, 8, 15360⟩ := by
  rw [(by norm_num : (80896 : Nat) = 512 + 80384), zeroSteps_add, zeroSteps_block_157]
  decide

theorem zeroSteps_block_159 :
    zeroSteps 81408 zeroInitData = ⟨386561161, 2407465972, 2574612468, 16777353, 8, 15872⟩ := by
  rw [(by norm_num : (81408 : Nat) = 512 + 80896), zeroSteps_add, zeroSteps_block_158]
  decide

theorem zeroSteps_block_160 :
    zeroSteps 81920 zeroInitData = ⟨386561161, 1012489782, 1046154934, 352855049, 8, 16384⟩ := by
  rw [(by norm_num : (81920 : Nat) = 512 + 81408), zeroSteps_add, zeroSteps_block_159]
  decide

theorem zeroSteps_block_161 :
    zeroSteps 82432 zeroInitData = ⟨386561161, 2516519369, 2533300673, 336225409, 8, 16896⟩ := by
  rw [(by norm_num : (82432 : Nat) = 512 + 81920), zeroSteps_add, zeroSteps_block_160]
  decide

theorem zeroSteps_block_162 :
    zeroSteps 82944 zeroInitData = ⟨386561161, 3475671834, 3374504858, 285352969, 8, 17408⟩ := by
  rw [(by norm_num : (82944 : Nat) = 512 + 82432), zeroSteps_add, zeroSteps_block_161]
  decide

theorem zeroSteps_block_163 :
    zeroSteps 83456 zeroInitData = ⟨386561161, 3106792640, 2854614088, 67265537, 8, 17920⟩ := by
  rw [(by norm_num : (83456 : Nat) = 512 + 82944), zeroSteps_add, zeroSteps_block_162]
  decide

theorem zeroSteps_block_164 :
    zeroSteps 83968 zeroInitData = ⟨386561161, 1015563586, 696938826, 34095233, 8, 18432⟩ := by
  rw [(by norm_num : (83968 : Nat) = 512 + 83456), zeroSteps_add, zeroSteps_block_163]
  decide

theorem zeroSteps_block_165 :
    zeroSteps 84480 zeroInitData = ⟨386561161, 2275002902, 2275117726, 386413569, 8, 18944⟩ := by
  rw [(by norm_num : (84480 : Nat) = 512 + 83968), zeroSteps_add, zeroSteps_block_164]
  decide

theorem zeroSteps_block_166 :
    zeroSteps 84992 zeroInitData = ⟨386561161, 128573465, 128578584, 386556040, 8, 19456⟩ := by
  rw [(by norm_num : (84992 : Nat) = 512 + 84480), zeroSteps_add, zeroSteps_block_165]
  decide

theorem zeroSteps_block_167 :
    zeroSteps 85504 zeroInitData = ⟨386561161, 2433331496, 2450122152, 336207881, 8, 19968⟩ := by
  rw [(by norm_num : (85504 : Nat) = 512 + 84992), zeroSteps_add, zeroSteps_block_166]
  decide

theorem zeroSteps_block_168 :
    zeroSteps 86016 zeroInitData = ⟨386561161, 2616722874, 2649911602, 285212673, 8, 20480⟩ := by
  rw [(by norm_num : (86016 : Nat) = 512 + 85504), zeroSteps_add, zeroSteps_block_167]
  decide

theorem zeroSteps_block_169 :
    zeroSteps 86528 zeroInitData = ⟨386561161, 3196621047, 3162562679, 352453641, 8, 20992⟩ := by
  rw [(by norm_num : (86528 : Nat) = 512 + 86016), zeroSteps_add, zeroSteps_block_168]
  decide

theorem zeroSteps_block_170 :
    zeroSteps 87040 zeroInitData = ⟨386561161, 4095652433, 3827086040, 117994496, 8, 21504⟩ := by
  rw [(by norm_num : (87040 : Nat) = 512 + 86528), zeroSteps_add, zeroSteps_block_169]
  decide

theorem zeroSteps_block_171 :
    zeroSteps 87552 zeroInitData = ⟨386561161, 450331995, 417305947, 352478345, 8, 22016⟩ := by
  rw [(by norm_num : (87552 : Nat) = 512 + 87040), zeroSteps_add, zeroSteps_block_170]
  decide

theorem zeroSteps_block_172 :
    zeroSteps 88064 zeroInitData = ⟨386561161, 2121792454, 2055208775, 318926856, 8, 22528⟩ := by
  rw [(by norm_num : (88064 : Nat) = 512 + 87552), zeroSteps_add, zeroSteps_block_171]
  decide

theorem zeroSteps_block_173 :
    zeroSteps 88576 zeroInitData = ⟨386561161, 3833372618, 3883327426, 335557761, 8, 23040⟩ := by
  rw [(by norm_num : (88576 : Nat) = 512 + 88064), zeroSteps_add, zeroSteps_block_172]
  decide

theorem zeroSteps_block_174 :
    zeroSteps 89088 zeroInitData = ⟨386561161, 1115997485, 1183114540, 319444104, 8, 23552⟩ := by
  rw [(by norm_num : (89088 : Nat) = 512 + 88576), zeroSteps_add, zeroSteps_block_173]
  decide

theorem zeroSteps_block_175 :
    zeroSteps 89600 zeroInitData = ⟨386561161, 2798520108, 2714117924, 268588161, 8, 24064⟩ := by
  rw [(by norm_num : (89600 : Nat) = 512 + 89088), zeroSteps_add, zeroSteps_block_174]
  decide

theorem zeroSteps_block_176 :
    zeroSteps 90112 zeroInitData = ⟨386561161, 1723077621, 1891387381, 16916617, 8, 24576⟩ := by
  rw [(by norm_num : (90112 : Nat) = 512 + 89600), zeroSteps_add, zeroSteps_block_175]
  decide

theorem zeroSteps_block_177 :
    zeroSteps 90624 zeroInitData = ⟨386561161, 3399083466, 3466170699, 319422472, 8, 25088⟩ := by
  rw [(by norm_num : (90624 : Nat) = 512 + 90112), zeroSteps_add, zeroSteps_block_176]
  decide

theorem zeroSteps_block_178 :
    zeroSteps 91136 zeroInitData = ⟨386561161, 2439830095, 2154207950, 100676616, 8, 25600⟩ := by
  rw [(by norm_num : (91136 : Nat) = 512 + 90624), zeroSteps_add, zeroSteps_block_177]
  decide

theorem zeroSteps_block_179 :
    zeroSteps 91648 zeroInitData = ⟨386561161, 1532527778, 1599123626, 318914689, 8, 26112⟩ := by
  rw [(by norm_num : (91648 : Nat) = 512 + 91136), zeroSteps_add, zeroSteps_block_178]
  decide

theorem zeroSteps_block_180 :
    zeroSteps 92160 zeroInitData = ⟨386561161, 397902618, 364376859, 352978056, 8, 26624⟩ := by
  rw [(by norm_num : (92160 : Nat) = 512 + 91648), zeroSteps_add, zeroSteps_block_179]
  decide

theorem zeroSteps_block_181 :
    zeroSteps 92672 zeroInitData = ⟨386561161, 4127393142, 4026729855, 285897856, 8, 27136⟩ := by
  rw [(by norm_num : (92672 : Nat) = 512 + 92160), zeroSteps_add, zeroSteps_block_180]
  decide

theorem zeroSteps_block_182 :
    zeroSteps 93184 zeroInitData = ⟨386561161, 3589368347, 3572701722, 369624200, 8, 27648⟩ := by
  rw [(by norm_num : (93184 : Nat) = 512 + 92672), zeroSteps_add, zeroSteps_block_181]
  decide

theorem zeroSteps_block_183 :
    zeroSteps 93696 zeroInitData = ⟨386561161, 1968565153, 1700121384, 118117376, 8, 28160⟩ := by
  rw [(by norm_num : (93696 : Nat) = 512 + 93184), zeroSteps_add, zeroSteps_block_182]
  decide

theorem zeroSteps_block_184 :
    zeroSteps 94208 zeroInitData = ⟨386561161, 1236743420, 1505697908, 117596161, 8, 28672⟩ := by
  rw [(by norm_num : (94208 : Nat) = 512 + 93696), zeroSteps_add, zeroSteps_block_183]
  decide

theorem zeroSteps_block_185 :
    zeroSteps 94720 zeroInitData = ⟨386561161, 2665590590, 2397170494, 118108297, 8, 29184⟩ := by
  rw [(by norm_num : (94720 : Nat) = 512 + 94208), zeroSteps_add, zeroSteps_block_184]
  decide

theorem zeroSteps_block_186 :
    zeroSteps 95232 zeroInitData = ⟨386561161, 4103650426, 3785014514, 34108417, 8, 29696⟩ := by
  rw [(by norm_num : (95232 : Nat) = 512 + 94720), zeroSteps_add, zeroSteps_block_185]
  decide

theorem zeroSteps_block_187 :
    zeroSteps 95744 zeroInitData = ⟨386561161, 999926890, 1033099370, 285212809, 8, 30208⟩ := by
  rw [(by norm_num : (95744 : Nat) = 512 + 95232), zeroSteps_add, zeroSteps_block_186]
  decide

theorem zeroSteps_block_188 :
    zeroSteps 96256 zeroInitData = ⟨386561161, 281551414, 46285374, 83891329, 8, 30720⟩ := by
  rw [(by norm_num : (96256 : Nat) = 512 + 95744), zeroSteps_add, zeroSteps_block_187]
  decide

theorem zeroSteps_block_189 :
    zeroSteps 96768 zeroInitData = ⟨386561161, 3896210793, 4180887008, 100811776, 8, 31232⟩ := by
  rw [(by norm_num : (96768 : Nat) = 512 + 96256), zeroSteps_add, zeroSteps_block_188]
  decide

theorem zeroSteps_block_190 :
    zeroSteps 97280 zeroInitData = ⟨386561161, 1910447055, 1893154639, 369250313, 8, 31744⟩ := by
  rw [(by norm_num : (97280 : Nat) = 512 + 96768), zeroSteps_add, zeroSteps_block_189]
  decide

theorem zeroSteps_block_191 :
    zeroSteps 97792 zeroInitData = ⟨386561161, 2433719633, 2516975057, 268440585, 8, 32256⟩ := by
  rw [(by norm_num : (97792 : Nat) = 512 + 97280), zeroSteps_add, zeroSteps_block_190]
  decide

theorem zeroSteps_block_192 :
    zeroSteps 98304 zeroInitData = ⟨386561161, 2828120790, 3197743838, 16938113, 8, 32768⟩ := by
  rw [(by norm_num : (98304 : Nat) = 512 + 97792), zeroSteps_add, zeroSteps_block_191]
  decide

theorem zeroSteps_block_193 :
    zeroSteps 98816 zeroInitData = ⟨386561161, 3370029829, 3470190468, 285343752, 8, 33280⟩ := by
  rw [(by norm_num : (98816 : Nat) = 512 + 98304), zeroSteps_add, zeroSteps_block_192]
  decide

theorem zeroSteps_block_194 :
    zeroSteps 99328 zeroInitData = ⟨386561161, 2028767710, 1860602207, 16806920, 8, 33792⟩ := by
  rw [(by norm_num : (99328 : Nat) = 512 + 98816), zeroSteps_add, zeroSteps_block_193]
  decide

theorem zeroSteps_block_195 :
    zeroSteps 99840 zeroInitData = ⟨386561161, 1251485305, 1334997625, 301998217, 8, 34304⟩ := by
  rw [(by norm_num : (99840 : Nat) = 512 + 99328), zeroSteps_add, zeroSteps_block_194]
  decide

theorem zeroSteps_block_196 :
    zeroSteps 100352 zeroInitData = ⟨386561161, 2976162870, 2976297151, 386424832, 8, 34816⟩ := by
  rw [(by norm_num : (100352 : Nat) = 512 + 99840), zeroSteps_add, zeroSteps_block_195]
  decide

theorem zeroSteps_block_197 :
    zeroSteps 100864 zeroInitData = ⟨386561161, 181026453, 415922836, 84553864, 8, 35328⟩ := by
  rw [(by norm_num : (100864 : Nat) = 512 + 100352), zeroSteps_add, zeroSteps_block_196]
  decide

theorem zeroSteps_block_198 :
    zeroSteps 101376 zeroInitData = ⟨386561161, 2990231817, 2688102656, 84415616, 8, 35840⟩ := by
  rw [(by norm_num : (101376 : Nat) = 512 + 100864), zeroSteps_add, zeroSteps_block_197]
  decide

theorem zeroSteps_block_199 :
    zeroSteps 101888 zeroInitData = ⟨386561161, 3799285014, 4118183326, 553985, 8, 36352⟩ := by
  rw [(by norm_num : (101888 : Nat) = 512 + 101376), zeroSteps_add, zeroSteps_block_198]
  decide

theorem zeroSteps_block_200 :
    zeroSteps 102400 zeroInitData = ⟨386561161, 785034367, 751495414, 352989184, 8, 36864⟩ := by
  rw [(by norm_num : (102400 : Nat) = 512 + 101888), zeroSteps_add, zeroSteps_block_199]
  decide

theorem zeroSteps_block_201 :
    zeroSteps 102912 zeroInitData = ⟨386561161, 4246157260, 3944178509, 17440776, 8, 37376⟩ := by
  rw [(by norm_num : (102912 : Nat) = 512 + 102400), zeroSteps_add, zeroSteps_block_200]
  decide

theorem zeroSteps_block_202 :
    zeroSteps 103424 zeroInitData = ⟨386561161, 3980400903, 4248840583, 118113289, 8, 37888⟩ := by
  rw [(by norm_num : (103424 : Nat) = 512 + 102912), zeroSteps_add, zeroSteps_block_201]
  decide

theorem zeroSteps_block_203 :
    zeroSteps 103936 zeroInitData = ⟨386561161, 1865179178, 1848390698, 369762441, 8, 38400⟩ := by
  rw [(by norm_num : (103936 : Nat) = 512 + 103424), zeroSteps_add, zeroSteps_block_202]
  decide

theorem zeroSteps_block_204 :
    zeroSteps 104448 zeroInitData = ⟨386561161, 4209369408, 4259816896, 268972041, 8, 38912⟩ := by
  rw [(by norm_num : (104448 : Nat) = 512 + 103936), zeroSteps_add, zeroSteps_block_203]
  decide

theorem zeroSteps_block_205 :
    zeroSteps 104960 zeroInitData = ⟨386561161, 1983229386, 2000533962, 369254537, 8, 39424⟩ := by
  rw [(by norm_num : (104960 : Nat) = 512 + 104448), zeroSteps_add, zeroSteps_block_204]
  decide

theorem zeroSteps_block_206 :
    zeroSteps 105472 zeroInitData = ⟨386561161, 2939958855, 2906523334, 352863240, 8, 39936⟩ := by
  rw [(by norm_num : (105472 : Nat) = 512 + 104960), zeroSteps_add, zeroSteps_block_205]
  decide

theorem zeroSteps_block_207 :
    zeroSteps 105984 zeroInitData = ⟨386561161, 164305401, 264849905, 285746305, 8, 40448⟩ := by
  rw [(by norm_num : (105984 : Nat) = 512 + 105472), zeroSteps_add, zeroSteps_block_206]
  decide

theorem zeroSteps_block_208 :
    zeroSteps 106496 zeroInitData = ⟨386561161, 3078044339, 3061796538, 369229952, 8, 40960⟩ := by
  rw [(by norm_num : (106496 : Nat) = 512 + 105984), zeroSteps_add, zeroSteps_block_207]
  decide

theorem zeroSteps_block_209 :
    zeroSteps 107008 zeroInitData = ⟨386561161, 3226805528, 3596420376, 16929929, 8, 41472⟩ := by
  rw [(by norm_num : (107008 : Nat) = 512 + 106496), zeroSteps_add, zeroSteps_block_208]
  decide

theorem zeroSteps_block_210 :
    zeroSteps 107520 zeroInitData = ⟨386561161, 988690116, 1072047684, 302146569, 8, 41984⟩ := by
  rw [(by norm_num : (107520 : Nat) = 512 + 107008), zeroSteps_add, zeroSteps_block_209]
  decide

theorem zeroSteps_block_211 :
    zeroSteps 108032 zeroInitData = ⟨386561161, 1211979404, 1279092364, 319440009, 8, 42496⟩ := by
  rw [(by norm_num : (108032 : Nat) = 512 + 107520), zeroSteps_add, zeroSteps_block_210]
  decide

theorem zeroSteps_block_212 :
    zeroSteps 108544 zeroInitData = ⟨386561161, 2054206634, 2070996138, 369763465, 8, 43008⟩ := by
  rw [(by norm_num : (108544 : Nat) = 512 + 108032), zeroSteps_add, zeroSteps_block_211]
  decide

theorem zeroSteps_block_213 :
    zeroSteps 109056 zeroInitData = ⟨386561161, 2915888973, 3167018828, 100811912, 8, 43520⟩ := by
  rw [(by norm_num : (109056 : Nat) = 512 + 108544), zeroSteps_add, zeroSteps_block_212]
  decide

theorem zeroSteps_block_214 :
    zeroSteps 109568 zeroInitData = ⟨386561161, 1726594213, 1726077101, 386011265, 8, 44032⟩ := by
  rw [(by norm_num : (109568 : Nat) = 512 + 109056), zeroSteps_add, zeroSteps_block_213]
  decide

theorem zeroSteps_block_215 :
    zeroSteps 110080 zeroInitData = ⟨386561161, 1025555934, 992016727, 285880320, 8, 44544⟩ := by
  rw [(by norm_num : (110080 : Nat) = 512 + 109568), zeroSteps_add, zeroSteps_block_214]
  decide

theorem zeroSteps_block_216 :
    zeroSteps 110592 zeroInitData = ⟨386561161, 2137902574, 2120591855, 369234056, 8, 45056⟩ := by
  rw [(by norm_num : (110592 : Nat) = 512 + 110080), zeroSteps_add, zeroSteps_block_215]
  decide

theorem zeroSteps_block_217 :
    zeroSteps 111104 zeroInitData = ⟨386561161, 4025583098, 4227585523, 50340992, 8, 45568⟩ := by
  rw [(by norm_num : (111104 : Nat) = 512 + 110592), zeroSteps_add, zeroSteps_block_216]
  decide

theorem zeroSteps_block_218 :
    zeroSteps 111616 zeroInitData = ⟨386561161, 3335323011, 3268200843, 319438977, 8, 46080⟩ := by
  rw [(by norm_num : (111616 : Nat) = 512 + 111104), zeroSteps_add, zeroSteps_block_217]
  decide

theorem zeroSteps_block_219 :
    zeroSteps 112128 zeroInitData = ⟨386561161, 416453801, 181575841, 84557953, 8, 46592⟩ := by
  rw [(by norm_num : (112128 : Nat) = 512 + 111616), zeroSteps_add, zeroSteps_block_218]
  decide

theorem zeroSteps_block_220 :
    zeroSteps 112640 zeroInitData = ⟨386561161, 1886209766, 1919886055, 352850056, 8, 47104⟩ := by
  rw [(by norm_num : (112640 : Nat) = 512 + 112128), zeroSteps_add, zeroSteps_block_219]
  decide

theorem zeroSteps_block_221 :
    zeroSteps 113152 zeroInitData = ⟨386561161, 2435133697, 2418361601, 369754249, 8, 47616⟩ := by
  rw [(by norm_num : (113152 : Nat) = 512 + 112640), zeroSteps_add, zeroSteps_block_220]
  decide

theorem zeroSteps_block_222 :
    zeroSteps 113664 zeroInitData = ⟨386561161, 2821431605, 2938356148, 268571656, 8, 48128⟩ := by
  rw [(by norm_num : (113664 : Nat) = 512 + 113152), zeroSteps_add, zeroSteps_block_221]
  decide

theorem zeroSteps_block_223 :
    zeroSteps 114176 zeroInitData = ⟨386561161, 3994472630, 4011238455, 369754120, 8, 48640⟩ := by
  rw [(by norm_num : (114176 : Nat) = 512 + 113664), zeroSteps_add, zeroSteps_block_222]
  decide

theorem zeroSteps_block_224 :
    zeroSteps 114688 zeroInitData = ⟨386561161, 3166342583, 2881146294, 668808, 8, 49152⟩ := by
  rw [(by norm_num : (114688 : Nat) = 512 + 114176), zeroSteps_add, zeroSteps_block_223]
  decide

theorem zeroSteps_block_225 :
    zeroSteps 115200 zeroInitData = ⟨386561161, 1614746156, 1714767532, 285220873, 8, 49664⟩ := by
  rw [(by norm_num : (115200 : Nat) = 512 + 114688), zeroSteps_add, zeroSteps_block_224]
  decide

theorem zeroSteps_block_226 :
    zeroSteps 115712 zeroInitData = ⟨386561161, 1138001490, 1407112923, 117449728, 8, 50176⟩ := by
  rw [(by norm_num : (115712 : Nat) = 512 + 115200), zeroSteps_add, zeroSteps_block_225]
  decide

theorem zeroSteps_block_227 :
    zeroSteps 116224 zeroInitData = ⟨386561161, 322968072, 323508736, 386020481, 8, 50688⟩ := by
  rw [(by norm_num : (116224 : Nat) = 512 + 115712), zeroSteps_add, zeroSteps_block_226]
  decide

theorem zeroSteps_block_228 :
    zeroSteps 116736 zeroInitData = ⟨386561161, 2917586505, 2833565384, 302539784, 8, 51200⟩ := by
  rw [(by norm_num : (116736 : Nat) = 512 + 116224), zeroSteps_add, zeroSteps_block_227]
  decide

theorem zeroSteps_block_229 :
    zeroSteps 117248 zeroInitData = ⟨386561161, 2978862711, 3045971575, 319452297, 8, 51712⟩ := by
  rw [(by norm_num : (117248 : Nat) = 512 + 116736), zeroSteps_add, zeroSteps_block_228]
  decide

theorem zeroSteps_block_230 :
    zeroSteps 117760 zeroInitData = ⟨386561161, 3169893932, 2918885924, 100688001, 8, 52224⟩ := by
  rw [(by norm_num : (117760 : Nat) = 512 + 117248), zeroSteps_add, zeroSteps_block_229]
  decide

theorem zeroSteps_block_231 :
    zeroSteps 118272 zeroInitData = ⟨386561161, 1973205139, 1956038682, 369099776, 8, 52736⟩ := by
  rw [(by norm_num : (118272 : Nat) = 512 + 117760), zeroSteps_add, zeroSteps_block_230]
  decide

theorem zeroSteps_block_232 :
    zeroSteps 118784 zeroInitData = ⟨386561161, 2690443292, 2723452949, 352453760, 8, 53248⟩ := by
  rw [(by norm_num : (118784 : Nat) = 512 + 118272), zeroSteps_add, zeroSteps_block_231]
  decide

theorem zeroSteps_block_233 :
    zeroSteps 119296 zeroInitData = ⟨386561161, 3960509713, 4011381137, 335687689, 8, 53760⟩ := by
  rw [(by norm_num : (119296 : Nat) = 512 + 118784), zeroSteps_add, zeroSteps_block_232]
  decide

theorem zeroSteps_block_234 :
    zeroSteps 119808 zeroInitData = ⟨386561161, 47182256, 113631544, 318792705, 8, 54272⟩ := by
  rw [(by norm_num : (119808 : Nat) = 512 + 119296), zeroSteps_add, zeroSteps_block_233]
  decide

theorem zeroSteps_block_235 :
    zeroSteps 120320 zeroInitData = ⟨386561161, 2350415717, 2400877541, 336097289, 8, 54784⟩ := by
  rw [(by norm_num : (120320 : Nat) = 512 + 119808), zeroSteps_add, zeroSteps_block_234]
  decide

theorem zeroSteps_block_236 :
    zeroSteps 120832 zeroInitData = ⟨386561161, 1715361342, 1647596094, 318795913, 8, 55296⟩ := by
  rw [(by norm_num : (120832 : Nat) = 512 + 120320), zeroSteps_add, zeroSteps_block_235]
  decide

theorem zeroSteps_block_237 :
    zeroSteps 121344 zeroInitData = ⟨386561161, 258088643, 157843146, 285217920, 8, 55808⟩ := by
  rw [(by norm_num : (121344 : Nat) = 512 + 120832), zeroSteps_add, zeroSteps_block_236]
  decide

theorem zeroSteps_block_238 :
    zeroSteps 121856 zeroInitData = ⟨386561161, 3638134441, 3453719200, 34103424, 8, 56320⟩ := by
  rw [(by norm_num : (121856 : Nat) = 512 + 121344), zeroSteps_add, zeroSteps_block_237]
  decide

theorem zeroSteps_block_239 :
    zeroSteps 122368 zeroInitData = ⟨386561161, 3471505163, 3437417227, 352473225, 8, 56832⟩ := by
  rw [(by norm_num : (122368 : Nat) = 512 + 121856), zeroSteps_add, zeroSteps_block_238]
  decide

theorem zeroSteps_block_240 :
    zeroSteps 122880 zeroInitData = ⟨386561161, 3161767456, 3128217120, 285869193, 8, 57344⟩ := by
  rw [(by norm_num : (122880 : Nat) = 512 + 122368), zeroSteps_add, zeroSteps_block_239]
  decide

theorem zeroSteps_block_241 :
    zeroSteps 123392 zeroInitData = ⟨386561161, 3848622245, 4033298476, 34104320, 8, 57856⟩ := by
  rw [(by norm_num : (123392 : Nat) = 512 + 122880), zeroSteps_add, zeroSteps_block_240]
  decide

theorem zeroSteps_block_242 :
    zeroSteps 123904 zeroInitData = ⟨386561161, 1079549246, 1347463615, 117587976, 8, 58368⟩ := by
  rw [(by norm_num : (123904 : Nat) = 512 + 123392), zeroSteps_add, zeroSteps_block_241]
  decide

theorem zeroSteps_block_243 :
    zeroSteps 124416 zeroInitData = ⟨386561161, 2697656670, 2713770335, 369120392, 8, 58880⟩ := by
  rw [(by norm_num : (124416 : Nat) = 512 + 123904), zeroSteps_add, zeroSteps_block_242]
  decide

theorem zeroSteps_block_244 :
    zeroSteps 124928 zeroInitData = ⟨386561161, 2162773672, 2447993512, 101339273, 8, 59392⟩ := by
  rw [(by norm_num : (124928 : Nat) = 512 + 124416), zeroSteps_add, zeroSteps_block_243]
  decide

theorem zeroSteps_block_245 :
    zeroSteps 125440 zeroInitData = ⟨386561161, 2321670590, 2606867767, 101330944, 8, 59904⟩ := by
  rw [(by norm_num : (125440 : Nat) = 512 + 124928), zeroSteps_add, zeroSteps_block_244]
  decide

theorem zeroSteps_block_246 :
    zeroSteps 125952 zeroInitData = ⟨386561161, 3663853139, 3630809819, 352468993, 8, 60416⟩ := by
  rw [(by norm_num : (125952 : Nat) = 512 + 125440), zeroSteps_add, zeroSteps_block_245]
  decide

theorem zeroSteps_block_247 :
    zeroSteps 126464 zeroInitData = ⟨386561161, 3825874371, 3842000331, 369099905, 8, 60928⟩ := by
  rw [(by norm_num : (126464 : Nat) = 512 + 125952), zeroSteps_add, zeroSteps_block_246]
  decide

theorem zeroSteps_block_248 :
    zeroSteps 126976 zeroInitData = ⟨386561161, 4238448517, 3937113989, 16807049, 8, 61440⟩ := by
  rw [(by norm_num : (126976 : Nat) = 512 + 126464), zeroSteps_add, zeroSteps_block_247]
  decide

theorem zeroSteps_block_249 :
    zeroSteps 127488 zeroInitData = ⟨386561161, 603756215, 905360950, 16798728, 8, 61952⟩ := by
  rw [(by norm_num : (127488 : Nat) = 512 + 126976), zeroSteps_add, zeroSteps_block_248]
  decide

theorem zeroSteps_block_250 :
    zeroSteps 128000 zeroInitData = ⟨386561161, 83660049, 368356752, 100815880, 8, 62464⟩ := by
  rw [(by norm_num : (128000 : Nat) = 512 + 127488), zeroSteps_add, zeroSteps_block_249]
  decide

theorem zeroSteps_block_251 :
    zeroSteps 128512 zeroInitData = ⟨386561161, 1981553526, 1713142774, 118101001, 8, 62976⟩ := by
  rw [(by norm_num : (128512 : Nat) = 512 + 128000), zeroSteps_add, zeroSteps_block_250]
  decide

theorem zeroSteps_block_252 :
    zeroSteps 129024 zeroInitData = ⟨386561161, 190977381, 241829357, 302146561, 8, 63488⟩ := by
  rw [(by norm_num : (129024 : Nat) = 512 + 128512), zeroSteps_add, zeroSteps_block_251]
  decide

theorem zeroSteps_block_253 :
    zeroSteps 129536 zeroInitData = ⟨386561161, 145840034, 465130410, 67268737, 8, 64000⟩ := by
  rw [(by norm_num : (129536 : Nat) = 512 + 129024), zeroSteps_add, zeroSteps_block_252]
  decide

theorem zeroSteps_block_254 :
    zeroSteps 130048 zeroInitData = ⟨386561161, 1266055834, 1283350170, 268587145, 8, 64512⟩ := by
  rw [(by norm_num : (130048 : Nat) = 512 + 129536), zeroSteps_add, zeroSteps_block_253]
  decide

theorem zeroSteps_block_255 :
    zeroSteps 130560 zeroInitData = ⟨386561161, 728610845, 1013296156, 155784, 8, 65024⟩ := by
  rw [(by norm_num : (130560 : Nat) = 512 + 130048), zeroSteps_add, zeroSteps_block_254]
  decide

/-- The register state after all 131071 zero-input combining steps of a
zero-length request, assembled from the 512-step blocks above. -/
theorem zeroSteps_total :
    zeroSteps 131071 zeroInitData = ⟨386561161, 248272119, 533094655, 100679809, 8, 65535⟩ := by
  rw [(by norm_num : (131071 : Nat) = 511 + 130560), zeroSteps_add, zeroSteps_block_255]
  decide

/-- The hashing phase over a working buffer whose every nibble reads as 0
amounts to 2 * new_counter zero-input combining steps, plus one more when
input_size is even. -/
theorem hashPhase_allZero_data (aram : Nat → Nat) (h : ∀ c, aramReadNibble aram c = 0)
    (w n : Nat) (d : CardUcodeWorkData) :
    (hashPhase aram w n d).data =
      if n % 2 = 0 then
        zeroSteps (2 * (if n ≠ 0 then (n - 1) / 2 % M16 else 0xFFFF) + 1) d
      else zeroSteps (2 * (if n ≠ 0 then (n - 1) / 2 % M16 else 0xFFFF)) d := by
  unfold hashPhase
  simp only [readD3, h]
  generalize (if n ≠ 0 then (n - 1) / 2 % M16 else 0xFFFF) = nc
  obtain ⟨hd, r1, r2⟩ := hashLoop_allZero aram h nc
    ⟨((w + 1) % 134217728 + 1) % 134217728, 0, 0, d, 0, 0 + 1 + 1⟩ rfl rfl
  by_cases he : n % 2 = 0
  · rw [if_pos he, if_pos he]
    dsimp only
    rw [hd, r1, r2]
    show zeroStep (zeroSteps (2 * nc) d) = _
    rw [zeroStep_zeroSteps]
  · rw [if_neg he, if_neg he]
    exact hd

set_option maxRecDepth 10000 in
/-- The result value of DoCardHash is the work_040a register produced by
the hashing phase run over the working buffer left by the load phase. -/
theorem doCardHash_value_eq (mem aram : Nat → Nat) (a u n w out : Nat) :
    (DoCardHash mem aram ⟨a, u, n, w, out⟩).value =
      (hashPhase (loadPhase aram (fun j => mem (a + j) % 0x100) n w).aram w n
        ⟨((loadPhase aram (fun j => mem (a + j) % 0x100) n w).sum + 0x170A7489) % M32,
          0x05EFE0AA, 0xDAF4B157, 0x6BBEC3B6,
          ((loadPhase aram (fun j => mem (a + j) % 0x100) n w).sum + 8) % M16,
          0⟩).data.work_040a := rfl

set_option maxRecDepth 10000 in
/-- A zero-length request over the all-zero working buffer computes
exactly 131071 zero-input combining steps from the zero-sum initial
registers, for every work address. -/
theorem doCardHash_zero_value (w out : Nat) :
    (DoCardHash zeroMem zeroMem ⟨0, 0, 0, w, out⟩).value =
      (zeroSteps 131071 zeroInitData).work_040a := by
  rw [doCardHash_value_eq]
  have ha : (loadPhase zeroMem (fun j => zeroMem (0 + j) % 0x100) 0 w).aram = zeroMem := by
    simp [loadPhase, loadWords]
  have hsum : (loadPhase zeroMem (fun j => zeroMem (0 + j) % 0x100) 0 w).sum = 0 := by
    simp [loadPhase, loadWords]
  rw [ha, hsum]
  rw [show ((0 : Nat) + 0x170A7489) % M32 = 0x170A7489 by norm_num [M32]]
  rw [show ((0 : Nat) + 8) % M16 = 8 by norm_num [M16]]
  rw [show (⟨0x170A7489, 0x05EFE0AA, 0xDAF4B157, 0x6BBEC3B6, 8, 0⟩ : CardUcodeWorkData) =
    zeroInitData from rfl]
  rw [hashPhase_allZero_data zeroMem aramReadNibble_zeroMem w 0 zeroInitData]
  rw [if_pos (show (0 : Nat) % 2 = 0 by norm_num)]
  rw [if_neg (show ¬ (0 : Nat) ≠ 0 by norm_num)]

set_option maxRecDepth 100000 in
/-- Claim C1: compute_hash reproduces the regression vectors of the
specification bit-exactly.  With input_size = 8, bytes
00 00 00 00 00 00 00 00 give 0x24349566, bytes 00 00 00 00 00 00 00 01
give 0xAEE1A9CC, and bytes 01 23 45 67 89 AB CD EF give 0x9B5FE1FB; with
input_size = 0 and the all-zero working buffer the value written is
0x0ECC54F7 for every choice of work address; in every case the output
address only locates the 32-bit result and never changes it. -/
theorem c1_compute_hash_regression_vectors :
    (∀ out, (DoCardHash zeroMem zeroMem ⟨0, 0, 8, 0, out⟩).value = 0x24349566 ∧
        (DoCardHash zeroMem zeroMem ⟨0, 0, 8, 0, out⟩).output_addr = out) ∧
      (∀ out,
        (DoCardHash (memOfBytes [0, 0, 0, 0, 0, 0, 0, 1]) zeroMem
            ⟨0, 0, 8, 0, out⟩).value = 0xAEE1A9CC ∧
          (DoCardHash (memOfBytes [0, 0, 0, 0, 0, 0, 0, 1]) zeroMem
            ⟨0, 0, 8, 0, out⟩).output_addr = out) ∧
      (∀ out,
        (DoCardHash (memOfBytes [0x01, 0x23, 0x45, 0x67, 0x89, 0xAB, 0xCD, 0xEF]) zeroMem
            ⟨0, 0, 8, 0, out⟩).value = 0x9B5FE1FB ∧
          (DoCardHash (memOfBytes [0x01, 0x23, 0x45, 0x67, 0x89, 0xAB, 0xCD, 0xEF]) zeroMem
            ⟨0, 0, 8, 0, out⟩).output_addr = out) ∧
      (∀ work out, (DoCardHash zeroMem zeroMem ⟨0, 0, 0, work, out⟩).value = 0x0ECC54F7 ∧
        (DoCardHash zeroMem zeroMem ⟨0, 0, 0, work, out⟩).output_addr = out) :=
  ⟨fun out => ⟨by rw [doCardHash_value_eq]; decide, rfl⟩,
    fun out => ⟨by rw [doCardHash_value_eq]; decide, rfl⟩,
    fun out => ⟨by rw [doCardHash_value_eq]; decide, rfl⟩,
    fun work out => ⟨by rw [doCardHash_zero_value, zeroSteps_total], rfl⟩⟩

end CardVerify
